import Mathlib

/-!
Verification development for the GifMaker repository.

The repository contains two generations of the pipeline code:
* `worker.py` — the orchestrator actually wired into `main.py`/`ui.py`
  (class `Worker`, a Qt state machine driving ffmpeg/gifsicle), and
* the refactored core `engine.py` (pure command-plan builders),
  `process_runner.py` (buffered line splitting) and `models.py`.

Both are embedded below.  Python floats are modelled as `ℚ` (the numeric
claims never depend on IEEE rounding error) and Python's banker's
`round` as `pyRound`.  Qt processes, timers and signals are modelled as
explicit state plus a list of emitted events.
-/

namespace GifMaker

/-- Python 3 `round`: round half to even, on rationals. -/
def pyRound (q : ℚ) : ℤ :=
  if q - ⌊q⌋ < 1/2 then ⌊q⌋
  else if 1/2 < q - ⌊q⌋ then ⌊q⌋ + 1
  else if ⌊q⌋ % 2 = 0 then ⌊q⌋ else ⌊q⌋ + 1

/-- Python `int(...)` on a rational: truncation toward zero. -/
def pyInt (q : ℚ) : ℤ :=
  if 0 ≤ q then ⌊q⌋ else -⌊-q⌋

/-- `worker.py` `Step` enum (`auto()` values 1..5). -/
inductive Step where
  | idle
  | palette
  | render
  | optimize
  | finished
deriving DecidableEq, Repr

/-- The `auto()` value assigned to each member. -/
def Step.val : Step → Nat
  | .idle => 1
  | .palette => 2
  | .render => 3
  | .optimize => 4
  | .finished => 5

/-- `STEP_WEIGHTS` dict, in insertion order. -/
def STEP_WEIGHTS : List (Step × ℚ) := [(.palette, 10), (.render, 70), (.optimize, 20)]

/-- `STEP_WEIGHTS.get(s, default)`. -/
def stepWeightGet (s : Step) (default : ℚ) : ℚ :=
  match STEP_WEIGHTS.find? (fun p => p.1 = s) with
  | some p => p.2
  | none => default

/-- `sum(STEP_WEIGHTS[s] for s in STEP_WEIGHTS if s.value < self.current_step.value)`. -/
def weightDone (cur : Step) : ℚ :=
  ((STEP_WEIGHTS.filter (fun p => p.1.val < cur.val)).map Prod.snd).sum

/-- The integer percentage emitted by `Worker._emit_weighted_progress`:
`int(round(weight_done + weight_this * step_progress / 100.0))`. -/
def emitWeightedValue (cur : Step) (stepProgress : ℚ) : ℤ :=
  pyRound (weightDone cur + stepWeightGet cur 0 * stepProgress / 100)

/-- `ConverterSettings` as constructed by `ui.py` and consumed by `worker.py`.
Paths are plain strings; floats are rationals. -/
structure ConverterSettings where
  input_file : String
  output_file : String
  fps : ℤ
  width : ℤ
  height : ℤ
  dither_setting : String
  ffmpeg_path : String
  ffprobe_path : String
  gifsicle_path : String
  total_duration : Option ℚ
  speed_multiplier : ℚ
  webp_lossless : Bool
  webp_compression : ℤ
  webp_quality : ℤ
  loop : Bool
  palette_mode : String
deriving DecidableEq, Repr

/-- Python `s[:n]` on a string (by code points). -/
def strTake (s : String) (n : ℕ) : String := ⟨s.data.take n⟩

/-- Python `str.strip()`: remove leading and trailing whitespace. -/
def pyStrip (s : String) : String :=
  ⟨((s.data.dropWhile Char.isWhitespace).reverse.dropWhile Char.isWhitespace).reverse⟩

/-- `str(output_file).lower().endswith(".webp")` (ASCII lowering). -/
def isWebpOutput (p : String) : Bool :=
  ".webp".data.isSuffixOf (p.data.map Char.toLower)

/-- Python truthiness of `total_duration` (`None` and `0.0` are falsy). -/
def durationTruthy : Option ℚ → Bool
  | none => false
  | some d => d ≠ 0

/-- `if self.settings.total_duration and self.settings.total_duration > 0`. -/
def progressFlagActive : Option ℚ → Bool
  | none => false
  | some d => decide (d ≠ 0) && decide (0 < d)

/-- `if self.settings.speed_multiplier and self.settings.speed_multiplier != 1.0`.
Numeric rendering of the multiplier is abstracted by `toString`; no claim
inspects the digits of this filter string. -/
def speedFilterList (m : ℚ) : List String :=
  if m ≠ 0 ∧ m ≠ 1 then ["setpts=PTS/" ++ toString m] else []

def fpsFilterList (fps : ℤ) : List String :=
  if fps ≠ -1 then ["fps=" ++ toString fps] else []

/-- Filter list built inline by `Worker._execute_palette_generation`
(worker.py lines 112-120): the scale filter is appended unconditionally. -/
def workerPaletteFilters (st : ConverterSettings) : List String :=
  fpsFilterList st.fps ++ speedFilterList st.speed_multiplier ++
    ["scale=" ++ toString st.width ++ ":" ++ toString st.height ++ ":flags=lanczos",
     "format=rgb24",
     "palettegen=stats_mode=" ++ st.palette_mode]

/-- Argument list of the palette ffmpeg invocation (worker.py lines 122-128).
`palPath` stands for `str(self.pal_file)`. -/
def workerPaletteArgs (st : ConverterSettings) (palPath : String) : List String :=
  ["-v", "warning", "-i", st.input_file,
   "-vf", String.intercalate "," (workerPaletteFilters st),
   "-frames:v", "1", "-update", "1", "-y", palPath]

/-- Filter chain built inline by `Worker._execute_gif_rendering` (worker.py
lines 147-152): the scale filter is appended unconditionally. -/
def workerGifChain (st : ConverterSettings) : List String :=
  fpsFilterList st.fps ++ speedFilterList st.speed_multiplier ++
    ["scale=" ++ toString st.width ++ ":" ++ toString st.height ++ ":flags=lanczos"]

/-- `filter_complex` string of `Worker._execute_gif_rendering`. -/
def workerGifFilterComplex (st : ConverterSettings) : String :=
  String.intercalate "," (workerGifChain st) ++ "[x]" ++
    ";[x][1:v]paletteuse=dither=" ++ st.dither_setting

/-- Argument list of the GIF render ffmpeg invocation (worker.py lines 157-175). -/
def workerGifRenderArgs (st : ConverterSettings) (palPath : String) : List String :=
  let args :=
    ["-v", "warning", "-i", st.input_file, "-i", palPath,
     "-filter_complex", workerGifFilterComplex st] ++
    (if st.loop then ["-loop", "0"] else ["-loop", "1"]) ++
    (if isWebpOutput st.output_file then ["-loop", "0"] else []) ++
    ["-y", st.output_file]
  if progressFlagActive st.total_duration then ["-progress", "pipe:1"] ++ args else args

/-- gifsicle argument list of `Worker._execute_gif_optimization` (lines 196-201). -/
def workerOptimizeArgs (st : ConverterSettings) : List String :=
  ["-O3", if st.loop then "--loopcount=0" else "--no-loopcount",
   st.output_file, "-o", st.output_file]

/-- Filter list built by `Worker._run_webp_conversion` (lines 424-430). -/
def workerWebpFilters (st : ConverterSettings) : List String :=
  fpsFilterList st.fps ++ speedFilterList st.speed_multiplier ++
    ["scale=" ++ toString st.width ++ ":" ++ toString st.height ++ ":flags=lanczos",
     "format=rgba"]

/-- Argument list of the WebP ffmpeg invocation (worker.py lines 434-457).
Note the unconditional `-loop 0` at line 438 followed by the loop-flag pair
at lines 449-452. -/
def workerWebpArgs (st : ConverterSettings) : List String :=
  let args :=
    ["-v", "warning", "-i", st.input_file,
     "-vf", String.intercalate "," (workerWebpFilters st),
     "-loop", "0"] ++
    (if st.webp_lossless then ["-lossless", "1"]
     else ["-q:v", toString st.webp_quality,
           "-compression_level", toString st.webp_compression]) ++
    (if st.loop then ["-loop", "0"] else ["-loop", "1"]) ++
    ["-y", st.output_file]
  if progressFlagActive st.total_duration then ["-progress", "pipe:1"] ++ args else args

/-! ### The refactored pure core: `models.py` and `engine.py` -/

/-- `models.ToolPaths`. -/
structure ToolPaths where
  ffmpeg : String
  ffprobe : String
  gifsicle : String
deriving DecidableEq, Repr

/-- `models.ConversionJob`. -/
structure ConversionJob where
  input_file : String
  output_file : String
  fps : ℤ
  width : ℤ
  height : ℤ
  dither_setting : String
  speed_multiplier : ℚ := 1
  palette_mode : String := "diff"
  webp_quality : ℤ := 90
  webp_compression : ℤ := 4
  webp_lossless : Bool := false
  loop : Bool := true
  total_duration : Option ℚ := none
deriving DecidableEq, Repr

/-- `models.CommandPlan`. -/
structure CommandPlan where
  program : String
  args : List String
  log_tag : String
deriving DecidableEq, Repr

/-- `engine._add_scale_crop`: the list of filters the function appends to
its `filters` argument.  The inner conditionals mirror the source's
(redundant) `width if width != -1 else -1`. -/
def addScaleCrop (width height : ℤ) : List String :=
  if width = -1 ∧ height = -1 then []
  else if width = -1 ∨ height = -1 then
    ["scale=" ++ toString (if width ≠ -1 then width else -1) ++ ":" ++
       toString (if height ≠ -1 then height else -1) ++ ":flags=lanczos"]
  else
    ["scale=" ++ toString width ++ ":" ++ toString height ++
       ":flags=lanczos:force_original_aspect_ratio=increase",
     "crop=" ++ toString width ++ ":" ++ toString height ++
       ":(iw-" ++ toString width ++ ")/2:(ih-" ++ toString height ++ ")/2"]

/-- The scale/crop policy as worded in the spec (§4.1), for comparison with
`addScaleCrop`: both `-1` → no filter; exactly one `-1` → a single Lanczos
scale filter fixing the given dimension and passing `-1` for the other;
both fixed → scale-to-cover followed by a centered crop. -/
def scaleCropPolicy (width height : ℤ) : List String :=
  if width = -1 ∧ height = -1 then []
  else if width = -1 ∨ height = -1 then
    ["scale=" ++ toString width ++ ":" ++ toString height ++ ":flags=lanczos"]
  else
    ["scale=" ++ toString width ++ ":" ++ toString height ++
       ":flags=lanczos:force_original_aspect_ratio=increase",
     "crop=" ++ toString width ++ ":" ++ toString height ++
       ":(iw-" ++ toString width ++ ")/2:(ih-" ++ toString height ++ ")/2"]

/-- `engine._base_filters`. -/
def baseFilters (job : ConversionJob) : List String :=
  fpsFilterList job.fps ++ speedFilterList job.speed_multiplier ++
    addScaleCrop job.width job.height

/-- `engine.build_palette_plan`. -/
def buildPalettePlan (job : ConversionJob) (tools : ToolPaths) (paletteFile : String) :
    CommandPlan :=
  { program := tools.ffmpeg
    args := ["-v", "warning", "-i", job.input_file,
             "-vf", String.intercalate ","
               (baseFilters job ++ ["format=rgb24",
                 "palettegen=stats_mode=" ++ job.palette_mode]),
             "-update", "1", "-y", paletteFile]
    log_tag := "ffmpeg-palette" }

/-- `engine.build_gif_render_plan`. -/
def buildGifRenderPlan (job : ConversionJob) (tools : ToolPaths) (paletteFile : String) :
    CommandPlan :=
  let chain := baseFilters job
  let filterComplex :=
    if chain ≠ [] then
      "[0:v]" ++ String.intercalate "," chain ++ "[x]" ++
        ";[x][1:v]paletteuse=dither=" ++ job.dither_setting
    else
      "[0:v][1:v]paletteuse=dither=" ++ job.dither_setting
  let args :=
    ["-v", "warning", "-i", job.input_file, "-i", paletteFile,
     "-filter_complex", filterComplex] ++
    ["-loop", if job.loop then "0" else "1"] ++
    ["-y", job.output_file]
  { program := tools.ffmpeg
    args := if progressFlagActive job.total_duration then
        ["-progress", "pipe:1"] ++ args
      else args
    log_tag := "ffmpeg-render" }

/-- `engine.build_gifsicle_plan`. -/
def buildGifsiclePlan (job : ConversionJob) (tools : ToolPaths) : CommandPlan :=
  { program := tools.gifsicle
    args := ["-O3", if job.loop then "--loopcount=0" else "--no-loopcount",
             job.output_file, "-o", job.output_file]
    log_tag := "gifsicle-optimize" }

/-- `engine.build_webp_plan`. -/
def buildWebpPlan (job : ConversionJob) (tools : ToolPaths) : CommandPlan :=
  let args :=
    ["-v", "warning", "-i", job.input_file,
     "-vf", String.intercalate "," (baseFilters job ++ ["format=rgba"])] ++
    (if job.webp_lossless then ["-lossless", "1"]
     else ["-q:v", toString job.webp_quality,
           "-compression_level", toString job.webp_compression]) ++
    ["-loop", if job.loop then "0" else "1"] ++
    ["-y", job.output_file]
  { program := tools.ffmpeg
    args := if progressFlagActive job.total_duration then
        ["-progress", "pipe:1"] ++ args
      else args
    log_tag := "ffmpeg-render" }

/-! ### Regex models

`re.search(r"frame=\s*(\d+)", line)` and `re.search(r"out_time_ms=(\d+)", line)`:
leftmost match; since `\s` and `\d` are disjoint, the scan is deterministic —
at each candidate position match the literal, skip whitespace (for `\s*`),
then require at least one digit and take the maximal digit run. -/

def digitsToNat (ds : List Char) : ℕ :=
  ds.foldl (fun a c => a * 10 + (c.toNat - 48)) 0

/-- Try to match `frame=\s*(\d+)` anchored at the head of `l`. -/
def frameMatchAt (l : List Char) : Option ℕ :=
  if l.take 6 = "frame=".data then
    let rest := (l.drop 6).dropWhile Char.isWhitespace
    let ds := rest.takeWhile Char.isDigit
    if ds = [] then none else some (digitsToNat ds)
  else none

def searchFrameAux : List Char → Option ℕ
  | [] => none
  | c :: t =>
    match frameMatchAt (c :: t) with
    | some n => some n
    | none => searchFrameAux t

/-- `re.search(r"frame=\s*(\d+)", line)`, returning the captured number. -/
def reSearchFrame (line : String) : Option ℕ := searchFrameAux line.data

/-- Try to match `out_time_ms=(\d+)` anchored at the head of `l`. -/
def outTimeMatchAt (l : List Char) : Option ℕ :=
  if l.take 12 = "out_time_ms=".data then
    let ds := (l.drop 12).takeWhile Char.isDigit
    if ds = [] then none else some (digitsToNat ds)
  else none

def searchOutTimeAux : List Char → Option ℕ
  | [] => none
  | c :: t =>
    match outTimeMatchAt (c :: t) with
    | some n => some n
    | none => searchOutTimeAux t

/-- `re.search(r"out_time_ms=(\d+)", line)`, returning the captured number. -/
def reSearchOutTime (line : String) : Option ℕ := searchOutTimeAux line.data

/-! ### The `Worker` state machine (`worker.py`)

Each Qt slot / method is a function from a `WorkerState` to a new state
plus the list of observable events (`Sig`) it produces, in program order.
A `raised` flag records an escaped Python exception (`AttributeError`,
`KeyError`).  External facts (temp-dir creation, `waitForStarted`,
`pal_file.exists()`, detected FPS) are supplied by an `Env`. -/

/-- An active `QProcess` handle: program, argument list and the
`log_prefix` property attached to it. -/
structure ProcHandle where
  program : String
  args : List String
  log_tag : String
deriving DecidableEq, Repr

/-- Observable events of a `Worker`: its four Qt signals plus the
process/timer side effects. -/
inductive Sig where
  | logPlain (msg : String) (clearFirst : Bool)
  | logHtml (msg : String) (clearFirst : Bool)
  | progress (pct : ℤ) (msg : String)
  | finished (success : Bool) (title : String) (detail : String) (isError : Bool)
  | startProc (program : String) (args : List String) (tag : String)
  | terminateProc (program : String)
  | armKillTimer (intervalMs : ℕ)
  | killProc
  | cleanupTempDir
deriving DecidableEq, Repr

/-- Mutable attributes of a `Worker` instance.  `estimated_total_frames`
is `none` while the Python attribute does not exist (reading it raises
`AttributeError`); `procRunning` models `state() != NotRunning`. -/
structure WorkerState where
  settings : ConverterSettings
  isCancelled : Bool
  killTimerActive : Bool
  ffmpegFrameCount : ℕ
  currentProc : Option ProcHandle
  procRunning : Bool
  tempDirActive : Bool
  palFileSet : Bool
  currentStep : Step
  estimatedTotalFrames : Option ℤ
deriving DecidableEq, Repr

/-- `Worker.__init__`. -/
def initState (st : ConverterSettings) : WorkerState :=
  { settings := st
    isCancelled := false
    killTimerActive := false
    ffmpegFrameCount := 0
    currentProc := none
    procRunning := false
    tempDirActive := false
    palFileSet := false
    currentStep := .idle
    estimatedTotalFrames := none }

/-- External facts observed while a handler runs. -/
structure Env where
  tempDirOk : Bool
  startOk : Bool
  palExists : Bool
  detectedFps : Option ℚ
deriving DecidableEq, Repr

/-- Result of running one handler: new state, events in emission order,
and whether a Python exception escaped. -/
structure StepResult where
  state : WorkerState
  outs : List Sig
  raised : Bool
deriving DecidableEq, Repr

/-- Sequence two handler fragments, short-circuiting on an exception. -/
def StepResult.andThen (r : StepResult) (f : WorkerState → StepResult) : StepResult :=
  if r.raised then r
  else
    let r2 := f r.state
    { state := r2.state, outs := r.outs ++ r2.outs, raised := r2.raised }

/-- Placeholder for `str(self.pal_file)` (a fresh temp-dir path). -/
def palPathStr : String := "<tmp>/palette.png"

/-- `Worker._cleanup_temp_files` (success path of `cleanup()`). -/
def cleanupTempFiles (s : WorkerState) : StepResult :=
  { state := { s with tempDirActive := false, palFileSet := false }
    outs := if s.tempDirActive then
        [.cleanupTempDir, .logPlain "Temp directory cleaned up." false]
      else []
    raised := false }

/-- `Worker._handle_error`. -/
def handleError (msg : String) (s : WorkerState) : StepResult :=
  let c := cleanupTempFiles s
  { state := { c.state with currentStep := .idle }
    outs := [.logPlain ("\nERROR: " ++ msg) false,
             .progress 0 ("Error: " ++ strTake msg 50 ++ "…"),
             .finished false "Error" msg true] ++ c.outs
    raised := false }

/-- `Worker._handle_cancellation_during_step`. -/
def handleCancellationDuringStep (s : WorkerState) : StepResult :=
  let c := cleanupTempFiles s
  { state := { c.state with currentStep := .idle }
    outs := [.logPlain "\nOperation cancelled." false,
             .progress 0 "Cancelled.",
             .finished false "Cancelled" "Operation was cancelled by user." false] ++ c.outs
    raised := false }

/-- `Worker._finalize_conversion`. -/
def finalizeConversion (s : WorkerState) : StepResult :=
  let s1 := { s with currentStep := .finished }
  let frameInfo := if s.ffmpegFrameCount = 0 then "N/A" else toString s.ffmpegFrameCount
  let c := cleanupTempFiles s1
  { state := c.state
    outs := [.logHtml ("<br><font color=\"green\">Generated " ++ frameInfo ++
               " frames</font>") true,
             .logHtml ("<br><font color=\"green\">GIF saved as:</font> " ++
               s.settings.output_file) true,
             .progress 100 ("Done! " ++ frameInfo ++ " frames."),
             .finished true "Success"
               ("GIF saved.\nFrames: " ++ frameInfo ++ "\nOutput: " ++
                 s.settings.output_file) false] ++ c.outs
    raised := false }

/-- `Worker._emit_weighted_progress`. -/
def emitWeighted (s : WorkerState) (p : ℚ) (msg : String) : Sig :=
  .progress (emitWeightedValue s.currentStep p) msg

/-- `Worker._run_qprocess`.  `env.startOk` is the result of
`waitForStarted(5000)`. -/
def runQProcess (env : Env) (program : String) (args : List String) (tag : String)
    (s : WorkerState) : StepResult :=
  if s.isCancelled then handleCancellationDuringStep s
  else
    let s1 := { s with currentProc := some ⟨program, args, tag⟩,
                       procRunning := env.startOk }
    let launch : List Sig :=
      [.logPlain ("Cmd: " ++ String.intercalate " " (program :: args)) false,
       .startProc program args tag]
    if env.startOk then { state := s1, outs := launch, raised := false }
    else
      let e := handleError (tag ++ ": failed to start: <errorString>") s1
      { state := e.state, outs := launch ++ e.outs, raised := false }

/-- `Worker._execute_palette_generation`.  `env.tempDirOk` is whether
`tempfile.TemporaryDirectory()` succeeds. -/
def executePaletteGeneration (env : Env) (s : WorkerState) : StepResult :=
  let s1 := { s with currentStep := .palette }
  let head : List Sig :=
    [.logPlain "\n--- Generating Palette ---" false,
     emitWeighted s1 5 "Generating palette…"]
  if ¬ env.tempDirOk then
    let e := handleError "Failed to create temp directory: <exception>" s1
    { state := e.state, outs := head ++ e.outs, raised := false }
  else
    let s2 := { s1 with tempDirActive := true, palFileSet := true }
    let r := runQProcess env s2.settings.ffmpeg_path
      (workerPaletteArgs s2.settings palPathStr) "ffmpeg-render" s2
    { state := r.state, outs := head ++ r.outs, raised := false }

/-- `Worker._execute_gif_rendering`.  `env.palExists` is the result of
`self.pal_file.exists()`. -/
def executeGifRendering (env : Env) (s : WorkerState) : StepResult :=
  if ¬ (s.palFileSet ∧ env.palExists) then
    handleError "Palette file missing before GIF render." s
  else
    let s1 := { s with currentStep := .render, ffmpegFrameCount := 0 }
    let head : List Sig :=
      [.logPlain "\n--- Rendering GIF ---" false] ++
      (if durationTruthy s1.settings.total_duration then
          [emitWeighted s1 0 "Rendering GIF: 0 %"]
        else [.progress (-1) "Rendering GIF…"])
    let r := runQProcess env s1.settings.ffmpeg_path
      (workerGifRenderArgs s1.settings palPathStr) "ffmpeg-render" s1
    { state := r.state, outs := head ++ r.outs, raised := false }

/-- `Worker._execute_gif_optimization`.  The WebP branch sets
`current_step = FINISHED` and re-enters `_start_next_step`, whose
`FINISHED` entry is `_finalize_conversion` (after the cancellation
check); that dispatch is inlined here. -/
def executeGifOptimization (env : Env) (s : WorkerState) : StepResult :=
  if isWebpOutput s.settings.output_file then
    let s1 := { s with currentStep := .finished }
    let r := if s1.isCancelled then handleCancellationDuringStep s1
             else finalizeConversion s1
    { state := r.state
      outs := [.logPlain "Skipping GIF optimization step for WebP output." false] ++ r.outs
      raised := false }
  else
    let s1 := { s with currentStep := .optimize }
    let head : List Sig :=
      [.logPlain "\n--- Optimising GIF ---" false,
       emitWeighted s1 30 "Optimizing GIF…"]
    let r := runQProcess env s1.settings.gifsicle_path
      (workerOptimizeArgs s1.settings) "gifsicle-optimize" s1
    { state := r.state, outs := head ++ r.outs, raised := false }

/-- `Worker._start_next_step`.  The dispatch dict has no `IDLE` entry, so
reaching it with `current_step == IDLE` raises `KeyError`. -/
def startNextStep (env : Env) (s : WorkerState) : StepResult :=
  if s.isCancelled then handleCancellationDuringStep s
  else
    match s.currentStep with
    | .palette => executePaletteGeneration env s
    | .render => executeGifRendering env s
    | .optimize => executeGifOptimization env s
    | .finished => finalizeConversion s
    | .idle => { state := s, outs := [], raised := true }

/-- `Worker._on_process_finished`.  `crashed` is
`exit_status == QProcess.ExitStatus.CrashExit`. -/
def onProcessFinished (env : Env) (exitCode : ℤ) (crashed : Bool)
    (s : WorkerState) : StepResult :=
  let s0 := { s with killTimerActive := false }
  match s0.currentProc with
  | none => { state := s0, outs := [], raised := false }
  | some proc =>
    let s1 := { s0 with currentProc := none, procRunning := false }
    if s1.isCancelled then handleCancellationDuringStep s1
    else if crashed ∨ exitCode ≠ 0 then
      handleError (proc.log_tag ++ ": exited with code " ++ toString exitCode) s1
    else
      let adv : StepResult :=
        match s1.currentStep with
        | .palette =>
          { state := { s1 with currentStep := .render }
            outs := [.logPlain ("Palette generated → " ++ palPathStr) false,
                     emitWeighted s1 100 "Palette generated."]
            raised := false }
        | .render =>
          { state := { s1 with currentStep := .optimize }
            outs := [.logPlain "GIF rendering complete." false,
                     emitWeighted s1 100 "GIF rendered."]
            raised := false }
        | .optimize =>
          { state := { s1 with currentStep := .finished }
            outs := [.logPlain "GIF optimisation complete." false,
                     emitWeighted s1 100 "GIF optimised."]
            raised := false }
        | _ => { state := s1, outs := [], raised := false }
      adv.andThen (startNextStep env)

/-- `QProcess.ProcessError` values the code distinguishes. -/
inductive ProcErr where
  | failedToStart
  | crashed
  | other
deriving DecidableEq, Repr

def ProcErr.render : ProcErr → String
  | .failedToStart => "ProcessError.FailedToStart"
  | .crashed => "ProcessError.Crashed"
  | .other => "ProcessError.UnknownError"

/-- `Worker._on_process_error`. -/
def onProcessError (e : ProcErr) (s : WorkerState) : StepResult :=
  if s.isCancelled ∧ e = .crashed then
    let r := handleCancellationDuringStep s
    { state := r.state
      outs := [.logPlain "Process terminated on user request." false] ++ r.outs
      raised := false }
  else handleError ("QProcess error: " ++ e.render) s

/-- `Worker.request_cancellation_slot`. -/
def requestCancellation (s : WorkerState) : StepResult :=
  if s.isCancelled then { state := s, outs := [], raised := false }
  else
    let s1 := { s with isCancelled := true }
    match s1.currentProc with
    | some proc =>
      if s1.procRunning then
        { state := { s1 with killTimerActive := true }
          outs := [.logPlain "Cancellation requested by user." false,
                   .logPlain ("Terminating " ++ proc.program ++ " ...") false,
                   .terminateProc proc.program,
                   .armKillTimer 100]
          raised := false }
      else
        { state := s1
          outs := [.logPlain "Cancellation requested by user." false]
          raised := false }
    | none =>
      { state := s1
        outs := [.logPlain "Cancellation requested by user." false]
        raised := false }

/-- `Worker._force_kill_if_running` (the kill-timer timeout slot). -/
def forceKillIfRunning (s : WorkerState) : StepResult :=
  match s.currentProc with
  | some _ =>
    if s.procRunning then
      { state := s
        outs := [.logPlain "Process didn’t die; sending SIGKILL …" false, .killProc]
        raised := false }
    else { state := s, outs := [], raised := false }
  | none => { state := s, outs := [], raised := false }

/-- `Worker._process_stdout_line` (the `log_prefix` argument comes from the
process property).  Reading the absent `estimated_total_frames` attribute
raises `AttributeError`. -/
def processStdoutLine (tag : String) (line : String) (s : WorkerState) : StepResult :=
  if tag = "ffmpeg-render" then
    let fm := reSearchFrame line
    let s1 :=
      match fm with
      | some k => if k > s.ffmpegFrameCount then { s with ffmpegFrameCount := k } else s
      | none => s
    if durationTruthy s1.settings.total_duration then
      match s1.settings.total_duration, reSearchOutTime line with
      | some dur, some us =>
        let pct : ℚ := min 100 ((us : ℚ) / (dur * 1000000) * 100)
        { state := s1
          outs := [emitWeighted s1 pct
            ("Rendering GIF: " ++ toString (pyRound pct) ++ " %")]
          raised := false }
      | _, _ => { state := s1, outs := [], raised := false }
    else
      match fm with
      | some _ =>
        match s1.estimatedTotalFrames with
        | none => { state := s1, outs := [], raised := true }
        | some est =>
          if est ≠ 0 then
            let pct : ℚ := min 100 ((s1.ffmpegFrameCount : ℚ) / (est : ℚ) * 100)
            { state := s1
              outs := [emitWeighted s1 pct
                ("Rendering GIF: " ++ toString (pyRound pct) ++ " %")]
              raised := false }
          else
            { state := s1
              outs := [.progress (-1)
                ("Rendering GIF: " ++ toString s1.ffmpegFrameCount ++ " frames")]
              raised := false }
      | none => { state := s1, outs := [], raised := false }
  else if tag = "gifsicle-optimize" then
    { state := s
      outs := if pyStrip line ≠ "" then [.logPlain (tag ++ ": " ++ pyStrip line) false]
        else []
      raised := false }
  else { state := s, outs := [], raised := false }

/-- `Worker._run_webp_conversion`.  Note: `current_step` is left unchanged
(it stays `IDLE` for a fresh job) and the `finished` handler is the local
`on_webp_finished` closure. -/
def runWebpConversion (env : Env) (s : WorkerState) : StepResult :=
  let args := workerWebpArgs s.settings
  let s1 := { s with currentProc := some ⟨s.settings.ffmpeg_path, args, "ffmpeg-render"⟩,
                     procRunning := env.startOk }
  let head : List Sig :=
    [.progress 0 "Rendering WebP…",
     .logPlain ("Cmd: " ++ String.intercalate " " (s.settings.ffmpeg_path :: args)) false,
     .startProc s.settings.ffmpeg_path args "ffmpeg-render"]
  if env.startOk then { state := s1, outs := head, raised := false }
  else
    let e := handleError ("ffmpeg-render: failed to start: <errorString>") s1
    { state := e.state, outs := head ++ e.outs, raised := false }

/-- The local `on_webp_finished(exit_code, exit_status)` closure connected to
the WebP process's `finished` signal: both arguments are ignored. -/
def onWebpFinished (_exitCode : ℤ) (_crashed : Bool) (s : WorkerState) : StepResult :=
  finalizeConversion { s with currentStep := .finished }

/-- The tail of `Worker.run_conversion` (after `_start_next_step()` returns):
`self.estimated_total_frames = 0` followed by the duration/FPS based
estimate.  `env.detectedFps` is the result of `get_video_fps`. -/
def estimateFramesStep (env : Env) (s3 : WorkerState) : StepResult :=
  let s4 := { s3 with estimatedTotalFrames := some 0 }
  if durationTruthy s4.settings.total_duration then
    let fpsOpt : Option ℚ :=
      if s4.settings.fps ≠ -1 then some (s4.settings.fps : ℚ) else env.detectedFps
    let detectLogs : List Sig :=
      if s4.settings.fps = -1 then
        match env.detectedFps with
        | some f => if f ≠ 0 then [.logPlain "Auto-detected source FPS: <f>" false]
                    else [.logPlain "Could not detect source FPS." false]
        | none => [.logPlain "Could not detect source FPS." false]
      else []
    match s4.settings.total_duration, fpsOpt with
    | some d, some f =>
      if f ≠ 0 then
        { state := { s4 with estimatedTotalFrames := some (pyInt (d * f)) }
          outs := detectLogs ++
            [.logPlain ("Estimated total frames: " ++ toString (pyInt (d * f))) false]
          raised := false }
      else { state := s4, outs := detectLogs, raised := false }
    | _, _ => { state := s4, outs := detectLogs, raised := false }
  else { state := s4, outs := [], raised := false }

/-- `Worker.run_conversion`. -/
def runConversion (env : Env) (s : WorkerState) : StepResult :=
  let s1 := { s with isCancelled := false, ffmpegFrameCount := 0 }
  if isWebpOutput s1.settings.output_file then
    let r := runWebpConversion env s1
    { state := r.state
      outs := [.logPlain "Starting WebP generation …" true] ++ r.outs
      raised := false }
  else
    let s2 := { s1 with currentStep := .palette }
    let r := startNextStep env s2
    let r1 : StepResult :=
      { state := r.state, outs := [.logPlain "Starting GIF generation …" true] ++ r.outs,
        raised := r.raised }
    r1.andThen (estimateFramesStep env)

/-! ### Helper predicates, fixtures and evaluation lemmas -/

/-- Does `s` start with `pre` (by code points)? -/
def strStarts (pre s : String) : Bool := pre.data.isPrefixOf s.data

/-- Does the list contain `a` immediately followed by `b`? -/
def adjacentPair (a b : String) : List String → Bool
  | [] => false
  | [_] => false
  | x :: y :: rest => (x == a && y == b) || adjacentPair a b (y :: rest)

/-- A concrete GIF job used for witnesses and counterexamples. -/
def stGifFix : ConverterSettings :=
  { input_file := "in.mp4", output_file := "out.gif", fps := 15, width := 480,
    height := -1, dither_setting := "floyd_steinberg", ffmpeg_path := "ffmpeg",
    ffprobe_path := "ffprobe", gifsicle_path := "gifsicle",
    total_duration := some 10, speed_multiplier := 1, webp_lossless := false,
    webp_compression := 4, webp_quality := 90, loop := true, palette_mode := "diff" }

/-- The same job with a WebP output path. -/
def stWebpFix : ConverterSettings := { stGifFix with output_file := "out.webp" }

/-- Environment in which everything external succeeds. -/
def envFix : Env :=
  { tempDirOk := true, startOk := true, palExists := true, detectedFps := none }

/-- An active render-process handle. -/
def procRenderFix : ProcHandle :=
  ⟨"ffmpeg", workerGifRenderArgs stGifFix palPathStr, "ffmpeg-render"⟩

/-- `Worker` state in the middle of the RENDER step of the concrete GIF job. -/
def sRenderFix : WorkerState :=
  { initState stGifFix with
      currentStep := .render, currentProc := some procRenderFix,
      procRunning := true, tempDirActive := true, palFileSet := true }

/-- Is this event a terminal-result (`finished_signal`) emission? -/
def isFinishedSig : Sig → Bool
  | .finished _ _ _ _ => true
  | _ => false

/-- Is this event a process launch? -/
def isStartSig : Sig → Bool
  | .startProc _ _ _ => true
  | _ => false

/-- Number of terminal-result emissions in an event list. -/
def countFinished (outs : List Sig) : ℕ := (outs.filter isFinishedSig).length

/-- The numeric values of the progress emissions, in order. -/
def progressValues (outs : List Sig) : List ℤ :=
  outs.filterMap fun s =>
    match s with
    | .progress p _ => some p
    | _ => none

/-! ### Stream line splitting

`ProcessRunner._on_ready_read_stdout` / `_on_ready_read_stderr`
(`process_runner.py` lines 64-90) and the legacy inline handler
`Worker._on_process_ready_read_stdout` (`worker.py` lines 241-254).
Text is a `List Char`; `splitRuns` models `re.split(r"[\r\n]+", s)`. -/

def isNL (c : Char) : Bool := c = '\r' || c = '\n'

mutual

/-- `re.split(r"[\r\n]+", ·)`, segment mode: `acc` is the reversed
current segment. -/
def splitSeg (acc : List Char) : List Char → List (List Char)
  | [] => [acc.reverse]
  | c :: rest => if isNL c then acc.reverse :: splitRun rest else splitSeg (c :: acc) rest

/-- `re.split(r"[\r\n]+", ·)`, separator-run mode. -/
def splitRun : List Char → List (List Char)
  | [] => [[]]
  | c :: rest => if isNL c then splitRun rest else splitSeg [c] rest

end

/-- `re.split(r"[\r\n]+", s)`. -/
def splitRuns (s : List Char) : List (List Char) := splitSeg [] s

/-- One call of `ProcessRunner._on_ready_read_stdout` with buffered text
`buf` and freshly read `data`: returns the emitted lines and the new
buffer.  Mirrors:
`parts = re.split(...); buffer = parts[-1] if buffer and buffer[-1] not in "\r\n" else ""; lines = parts[:-1] if buffer else parts; emit nonempty lines`. -/
def runnerChunkStep (buf data : List Char) : List (List Char) × List Char :=
  let s := buf ++ data
  let parts := splitRuns s
  let newBuf : List Char :=
    match s.getLast? with
    | some c => if isNL c then [] else parts.getLastD []
    | none => []
  let toProcess := if newBuf.isEmpty then parts else parts.dropLast
  (toProcess.filter (fun l => !l.isEmpty), newBuf)

/-- Feeding a whole sequence of chunks to the runner, starting from
buffer `buf`; accumulates all emitted lines in order. -/
def runnerFeedFrom (buf : List Char) (chunks : List (List Char)) :
    List (List Char) × List Char :=
  chunks.foldl (fun acc d =>
    let r := runnerChunkStep acc.2 d
    (acc.1 ++ r.1, r.2)) ([], buf)

/-- Feeding chunks to a fresh runner (empty buffer). -/
def runnerFeed (chunks : List (List Char)) : List (List Char) × List Char :=
  runnerFeedFrom [] chunks

/-- Canonical single-character line splitter: completed nonempty lines are
emitted exactly once, in order, at the newline that terminates them; the
buffer holds the trailing partial line. -/
def lineStep (st : List (List Char) × List Char) (c : Char) :
    List (List Char) × List Char :=
  if isNL c then (if st.2.isEmpty then st.1 else st.1 ++ [st.2], [])
  else (st.1, st.2 ++ [c])

/-- Scanning a stream character by character from buffer `buf`. -/
def lineScan (buf : List Char) (data : List Char) : List (List Char) × List Char :=
  data.foldl lineStep ([], buf)

/-- One call of the legacy `Worker._on_process_ready_read_stdout`: every
nonempty part — including a trailing partial line — is processed
immediately and the buffer is cleared (`self.stdout_buffer = ""`). -/
def workerChunkStep (buf data : List Char) : List (List Char) × List Char :=
  ((splitRuns (buf ++ data)).filter (fun l => !l.isEmpty), [])

/-- Feeding chunks to the legacy worker handler. -/
def workerFeed (chunks : List (List Char)) : List (List Char) × List Char :=
  chunks.foldl (fun acc d =>
    let r := workerChunkStep acc.2 d
    (acc.1 ++ r.1, r.2)) ([], [])

/-- A concrete all-default job (`fps`, `width`, `height` all `-1`). -/
def stAllAutoFix : ConverterSettings :=
  { stGifFix with fps := -1, width := -1, height := -1 }

/-- `Worker` state right after `_run_webp_conversion` launched ffmpeg. -/
def sWebpRunFix : WorkerState :=
  { initState stWebpFix with
      currentProc := some ⟨"ffmpeg", workerWebpArgs stWebpFix, "ffmpeg-render"⟩,
      procRunning := true }

/-- `sRenderFix` with the running frame count at exactly 1. -/
def sRender1Fix : WorkerState := { sRenderFix with ffmpegFrameCount := 1 }

/-- Feeding a sequence of stdout lines to the worker during one step,
collecting the emitted events. -/
def renderLineFold (lines : List String) (s : WorkerState) : WorkerState × List Sig :=
  lines.foldl (fun acc line =>
    let r := processStdoutLine "ffmpeg-render" line acc.1
    (r.state, acc.2 ++ r.outs)) (s, [])

/-- The event trace of a full successful GIF run: start the job, finish the
palette process, stream `lines` from the render process, finish the render
process, finish the optimize process. -/
def gifRunTrace (env : Env) (st : ConverterSettings) (lines : List String) : List Sig :=
  let r0 := runConversion env (initState st)
  let r1 := onProcessFinished env 0 false r0.state
  let rl := renderLineFold lines r1.state
  let r2 := onProcessFinished env 0 false rl.1
  let r3 := onProcessFinished env 0 false r2.state
  r0.outs ++ r1.outs ++ rl.2 ++ r2.outs ++ r3.outs

/-- The GIF pipeline's step order, as the spec words it. -/
def pipelineOrder : List Step := [.palette, .render, .optimize]

/-- "Sum of the weights of all steps strictly before the current one",
as worded in the spec (§4.4). -/
def specWeightBefore (cur : Step) : ℚ :=
  ((pipelineOrder.takeWhile (fun s => s ≠ cur)).map (stepWeightGet · 0)).sum

/-- A concrete `ConversionJob` for the engine plan builders. -/
def jobFix : ConversionJob :=
  { input_file := "in.mp4", output_file := "out.gif", fps := 15, width := 480,
    height := -1, dither_setting := "floyd_steinberg", speed_multiplier := 1,
    palette_mode := "diff", webp_quality := 90, webp_compression := 4,
    webp_lossless := false, loop := true, total_duration := some 10 }

/-- Concrete tool paths. -/
def toolsFix : ToolPaths :=
  { ffmpeg := "ffmpeg", ffprobe := "ffprobe", gifsicle := "gifsicle" }

/-- The WebP job with no known duration. -/
def stWebpNoDurFix : ConverterSettings := { stWebpFix with total_duration := none }

/-! ### Theorems -/

theorem pyRound_ge_floor (q : ℚ) : ⌊q⌋ ≤ pyRound q := by
  unfold pyRound
  split_ifs <;> omega

theorem pyRound_le_floor_add_one (q : ℚ) : pyRound q ≤ ⌊q⌋ + 1 := by
  unfold pyRound
  split_ifs <;> omega

theorem pyRound_mono {a b : ℚ} (hab : a ≤ b) : pyRound a ≤ pyRound b := by
  rcases lt_or_eq_of_le (Int.floor_le_floor hab) with hf | hf
  · calc pyRound a ≤ ⌊a⌋ + 1 := pyRound_le_floor_add_one a
    _ ≤ ⌊b⌋ := by omega
    _ ≤ pyRound b := pyRound_ge_floor b
  · unfold pyRound
    rw [hf]
    have hr : a - (⌊b⌋ : ℚ) ≤ b - (⌊b⌋ : ℚ) := by linarith
    split_ifs <;> first | omega | linarith

theorem pyRound_intCast (n : ℤ) : pyRound (n : ℚ) = n := by
  unfold pyRound
  rw [Int.floor_intCast]
  split_ifs with h1 h2 h3 <;> simp_all <;> linarith

theorem stepWeightGet_idle : stepWeightGet .idle 0 = 0 := rfl

theorem stepWeightGet_palette : stepWeightGet .palette 0 = 10 := rfl

theorem stepWeightGet_render : stepWeightGet .render 0 = 70 := rfl

theorem stepWeightGet_optimize : stepWeightGet .optimize 0 = 20 := rfl

theorem stepWeightGet_finished : stepWeightGet .finished 0 = 0 := rfl

theorem weightDone_idle : weightDone .idle = 0 := by
  simp +decide [weightDone, STEP_WEIGHTS, Step.val]

theorem weightDone_palette : weightDone .palette = 0 := by
  simp +decide [weightDone, STEP_WEIGHTS, Step.val]

theorem weightDone_render : weightDone .render = 10 := by
  simp +decide [weightDone, STEP_WEIGHTS, Step.val]

theorem weightDone_optimize : weightDone .optimize = 80 := by
  simp +decide [weightDone, STEP_WEIGHTS, Step.val]
  norm_num

theorem weightDone_finished : weightDone .finished = 100 := by
  simp +decide [weightDone, STEP_WEIGHTS, Step.val]
  norm_num

theorem emitWeightedValue_idle (p : ℚ) : emitWeightedValue .idle p = 0 := by
  rw [emitWeightedValue, weightDone_idle, stepWeightGet_idle]
  unfold pyRound
  norm_num

theorem emitWeightedValue_finished (p : ℚ) : emitWeightedValue .finished p = 100 := by
  rw [emitWeightedValue, weightDone_finished, stepWeightGet_finished]
  unfold pyRound
  norm_num

theorem emitWeightedValue_palette_5 : emitWeightedValue .palette 5 = 0 := by
  rw [emitWeightedValue, weightDone_palette, stepWeightGet_palette]
  unfold pyRound
  norm_num

theorem emitWeightedValue_palette_100 : emitWeightedValue .palette 100 = 10 := by
  rw [emitWeightedValue, weightDone_palette, stepWeightGet_palette]
  unfold pyRound
  norm_num

theorem emitWeightedValue_render_100 : emitWeightedValue .render 100 = 80 := by
  rw [emitWeightedValue, weightDone_render, stepWeightGet_render]
  unfold pyRound
  norm_num

theorem emitWeightedValue_optimize_30 : emitWeightedValue .optimize 30 = 86 := by
  rw [emitWeightedValue, weightDone_optimize, stepWeightGet_optimize]
  unfold pyRound
  norm_num

theorem emitWeightedValue_optimize_100 : emitWeightedValue .optimize 100 = 100 := by
  rw [emitWeightedValue, weightDone_optimize, stepWeightGet_optimize]
  unfold pyRound
  norm_num

/-! ### Properties of the runner's line splitting -/

theorem split_ne_nil (l : List Char) :
    (∀ acc, splitSeg acc l ≠ []) ∧ splitRun l ≠ [] := by
  induction l with
  | nil => constructor <;> simp [splitSeg, splitRun]
  | cons c rest ih =>
    constructor
    · intro acc
      rw [splitSeg]
      by_cases hc : isNL c
      · simp [hc]
      · simp only [hc, if_false]
        exact ih.1 _
    · rw [splitRun]
      by_cases hc : isNL c
      · simp only [hc, if_true]
        exact ih.2
      · simp only [hc, if_false]
        exact ih.1 _

theorem splitSeg_no_nl (l : List Char) :
    ∀ acc, (∀ c ∈ l, isNL c = false) → splitSeg acc l = [acc.reverse ++ l] := by
  induction l with
  | nil => intro acc _; simp [splitSeg]
  | cons c rest ih =>
    intro acc h
    rw [splitSeg]
    have hc : isNL c = false := h c (by simp)
    simp only [hc, if_false, Bool.false_eq_true]
    rw [ih (c :: acc) (fun d hd => h d (by simp [hd]))]
    simp

theorem splitSeg_append_nl (buf : List Char) :
    ∀ acc c rest, (∀ b ∈ buf, isNL b = false) → isNL c = true →
      splitSeg acc (buf ++ c :: rest) = (acc.reverse ++ buf) :: splitRun rest := by
  induction buf with
  | nil => intro acc c rest _ hc; simp [splitSeg, hc]
  | cons b buf ih =>
    intro acc c rest h hc
    have hb : isNL b = false := h b (by simp)
    rw [List.cons_append, splitSeg]
    simp only [hb, Bool.false_eq_true, if_false]
    rw [ih (b :: acc) c rest (fun d hd => h d (by simp [hd])) hc]
    simp

theorem lineStep_out (out : List (List Char)) (buf : List Char) (c : Char) :
    lineStep (out, buf) c = (out ++ (lineStep ([], buf) c).1, (lineStep ([], buf) c).2) := by
  unfold lineStep
  split_ifs <;> simp

theorem foldl_lineStep_out (data : List Char) :
    ∀ out buf, data.foldl lineStep (out, buf) =
      (out ++ (lineScan buf data).1, (lineScan buf data).2) := by
  induction data with
  | nil => intro out buf; simp [lineScan]
  | cons c rest ih =>
    intro out buf
    rw [lineScan, List.foldl_cons, List.foldl_cons, lineStep_out out buf c]
    rw [ih (out ++ (lineStep ([], buf) c).1) (lineStep ([], buf) c).2]
    rw [ih (lineStep ([], buf) c).1 (lineStep ([], buf) c).2]
    simp

theorem runnerChunkStep_congr {b1 d1 b2 d2 : List Char} (h : b1 ++ d1 = b2 ++ d2) :
    runnerChunkStep b1 d1 = runnerChunkStep b2 d2 := by
  unfold runnerChunkStep
  rw [h]

theorem runnerChunkStep_nil (buf : List Char) (h : ∀ c ∈ buf, isNL c = false) :
    runnerChunkStep buf [] = ([], buf) := by
  cases buf with
  | nil => simp [runnerChunkStep, splitRuns, splitSeg]
  | cons b bs =>
    have h2 : splitRuns (b :: bs) = [b :: bs] := by
      rw [splitRuns, splitSeg_no_nl _ [] h]
      simp
    have hne : (b :: bs) ≠ ([] : List Char) := by simp
    have hlast : (b :: bs).getLast? = some ((b :: bs).getLast hne) :=
      List.getLast?_eq_getLast _ hne
    have hnl : isNL ((b :: bs).getLast hne) = false := h _ (List.getLast_mem hne)
    simp [runnerChunkStep, h2, hlast, hnl]

theorem splitRun_cons_nl {d : Char} (hd : isNL d = true) (r : List Char) :
    splitRun (d :: r) = splitRun r := by
  rw [splitRun]
  simp [hd]

theorem splitRun_cons_not_nl {d : Char} (hd : isNL d = false) (r : List Char) :
    splitRun (d :: r) = splitSeg [d] r := by
  rw [splitRun]
  simp [hd]

theorem splitRuns_cons_nl {d : Char} (hd : isNL d = true) (r : List Char) :
    splitRuns (d :: r) = [] :: splitRun r := by
  rw [splitRuns, splitSeg]
  simp [hd]

theorem splitRuns_cons_not_nl {d : Char} (hd : isNL d = false) (r : List Char) :
    splitRuns (d :: r) = splitRun (d :: r) := by
  rw [splitRuns, splitSeg, splitRun_cons_not_nl hd]
  simp [hd]

theorem runnerChunkStep_cons_nl (buf : List Char) (h : ∀ b ∈ buf, isNL b = false)
    (c : Char) (hc : isNL c = true) (rest : List Char) :
    runnerChunkStep buf (c :: rest) =
      ((if buf.isEmpty then [] else [buf]) ++ (runnerChunkStep [] rest).1,
       (runnerChunkStep [] rest).2) := by
  have hparts : splitRuns (buf ++ c :: rest) = buf :: splitRun rest := by
    rw [splitRuns, splitSeg_append_nl buf [] c rest h hc]
    simp
  cases rest with
  | nil =>
    rw [runnerChunkStep_nil [] (by simp)]
    have hlastL : (buf ++ [c]).getLast? = some c := List.getLast?_concat _
    simp only [runnerChunkStep, List.append_nil, hparts, hlastL, hc, if_true, splitRun]
    simp [List.filter_cons]
  | cons d r =>
    have hne : (d :: r) ≠ ([] : List Char) := by simp
    have hlastL : (buf ++ c :: d :: r).getLast? = some ((d :: r).getLast hne) := by
      rw [List.getLast?_append_of_ne_nil _ (by simp), List.getLast?_cons_cons,
        List.getLast?_eq_getLast_of_ne_nil hne]
    have hXne : splitRun (d :: r) ≠ [] := (split_ne_nil (d :: r)).2
    rcases List.eq_nil_or_concat (splitRun (d :: r)) with h0 | ⟨ys, y, hys⟩
    · exact absurd h0 hXne
    rw [List.concat_eq_append] at hys
    obtain ⟨pre, hR, hpre⟩ : ∃ pre, splitRuns (d :: r) = pre ++ ys ++ [y] ∧
        List.filter (fun l => !l.isEmpty) pre = [] := by
      by_cases hd : isNL d = true
      · refine ⟨[[]], ?_, by simp⟩
        rw [splitRuns_cons_nl hd r, ← splitRun_cons_nl hd r, hys]
        simp
      · refine ⟨[], ?_, by simp⟩
        rw [splitRuns_cons_not_nl (Bool.eq_false_iff.mpr hd) r, hys]
        simp
    simp only [runnerChunkStep, List.nil_append, hparts, hys, hR,
      List.getLast?_eq_getLast_of_ne_nil hne, hlastL]
    have hsh : buf :: (ys ++ [y]) = (buf :: ys) ++ [y] := rfl
    simp only [hsh]
    by_cases hnl : isNL ((d :: r).getLast hne) = true
    · simp only [hnl, if_true]
      by_cases hb : buf.isEmpty <;>
        simp [hb, List.filter_append, List.filter_cons, hpre]
    · simp only [hnl, Bool.false_eq_true, if_false]
      rw [List.getLastD_concat, List.getLastD_concat]
      by_cases hy : y.isEmpty
      · by_cases hb : buf.isEmpty <;>
          simp [hb, hy, List.filter_append, List.filter_cons, hpre]
      · rw [List.dropLast_concat, List.dropLast_concat]
        by_cases hb : buf.isEmpty <;>
          simp [hb, hy, List.filter_append, List.filter_cons, hpre]

theorem lineScan_cons (buf : List Char) (c : Char) (rest : List Char) :
    lineScan buf (c :: rest) =
      ((lineStep ([], buf) c).1 ++ (lineScan (lineStep ([], buf) c).2 rest).1,
       (lineScan (lineStep ([], buf) c).2 rest).2) := by
  rw [lineScan, List.foldl_cons, lineStep_out [] buf c, foldl_lineStep_out]

theorem lineScan_append (buf : List Char) (d e : List Char) :
    lineScan buf (d ++ e) =
      ((lineScan buf d).1 ++ (lineScan (lineScan buf d).2 e).1,
       (lineScan (lineScan buf d).2 e).2) := by
  rw [lineScan, List.foldl_append]
  rw [show (List.foldl lineStep ([], buf) d) =
    ((lineScan buf d).1, (lineScan buf d).2) from rfl]
  rw [foldl_lineStep_out]

theorem runnerChunkStep_eq_lineScan (data : List Char) :
    ∀ buf, (∀ c ∈ buf, isNL c = false) →
      runnerChunkStep buf data = lineScan buf data := by
  induction data with
  | nil =>
    intro buf h
    rw [runnerChunkStep_nil buf h]
    simp [lineScan]
  | cons c rest ih =>
    intro buf h
    rw [lineScan_cons]
    by_cases hc : isNL c = true
    · rw [runnerChunkStep_cons_nl buf h c hc rest, ih [] (by simp)]
      rw [lineStep]
      simp [hc]
    · have hc' : isNL c = false := Bool.eq_false_iff.mpr hc
      rw [runnerChunkStep_congr
        (show buf ++ c :: rest = (buf ++ [c]) ++ rest by simp)]
      rw [ih (buf ++ [c]) (by
        intro b hb
        rcases List.mem_append.mp hb with hb | hb
        · exact h b hb
        · simp at hb
          subst hb
          exact hc')]
      rw [lineStep]
      simp [hc']

theorem lineScan_no_nl (data : List Char) :
    ∀ buf, (∀ c ∈ buf, isNL c = false) →
      ∀ c ∈ (lineScan buf data).2, isNL c = false := by
  induction data with
  | nil => intro buf h; simpa [lineScan] using h
  | cons c rest ih =>
    intro buf h
    rw [lineScan_cons]
    by_cases hc : isNL c = true
    · refine fun x hx => ih [] (by simp) x ?_
      simpa [lineStep, hc] using hx
    · have hc' : isNL c = false := Bool.eq_false_iff.mpr hc
      refine fun x hx => ih (buf ++ [c]) ?_ x ?_
      · intro b hb
        rcases List.mem_append.mp hb with hb | hb
        · exact h b hb
        · simp at hb
          subst hb
          exact hc'
      · simpa [lineStep, hc'] using hx

theorem lineScan_out_nonempty (data : List Char) :
    ∀ buf, ∀ l ∈ (lineScan buf data).1, l ≠ [] := by
  induction data with
  | nil => intro buf l hl; simp [lineScan] at hl
  | cons c rest ih =>
    intro buf l hl
    rw [lineScan_cons] at hl
    rcases List.mem_append.mp hl with hl | hl
    · unfold lineStep at hl
      by_cases hc : isNL c = true <;> by_cases hb : buf.isEmpty = true <;>
        simp [hc, hb] at hl <;>
        first
        | (subst hl; simpa using hb)
        | exact absurd hl (by simp)
    · exact ih _ l hl

theorem foldl_chunk_out (cs : List (List Char)) :
    ∀ out buf, cs.foldl (fun acc d =>
        let r := runnerChunkStep acc.2 d
        (acc.1 ++ r.1, r.2)) (out, buf) =
      (out ++ (runnerFeedFrom buf cs).1, (runnerFeedFrom buf cs).2) := by
  induction cs with
  | nil => intro out buf; simp [runnerFeedFrom]
  | cons e es ih =>
    intro out buf
    rw [List.foldl_cons]
    show es.foldl _ (out ++ (runnerChunkStep buf e).1, (runnerChunkStep buf e).2) = _
    rw [ih]
    have hR : runnerFeedFrom buf (e :: es) =
        ((runnerChunkStep buf e).1 ++ (runnerFeedFrom (runnerChunkStep buf e).2 es).1,
         (runnerFeedFrom (runnerChunkStep buf e).2 es).2) := by
      show List.foldl _ _ (e :: es) = _
      rw [List.foldl_cons]
      show es.foldl _ ([] ++ (runnerChunkStep buf e).1, (runnerChunkStep buf e).2) = _
      rw [ih]
      simp
    rw [hR]
    simp

theorem runnerFeedFrom_cons (buf : List Char) (d : List Char) (cs : List (List Char)) :
    runnerFeedFrom buf (d :: cs) =
      ((runnerChunkStep buf d).1 ++ (runnerFeedFrom (runnerChunkStep buf d).2 cs).1,
       (runnerFeedFrom (runnerChunkStep buf d).2 cs).2) := by
  show List.foldl _ _ (d :: cs) = _
  rw [List.foldl_cons]
  show cs.foldl _ ([] ++ (runnerChunkStep buf d).1, (runnerChunkStep buf d).2) = _
  rw [foldl_chunk_out]
  simp

theorem runnerFeedFrom_eq (cs : List (List Char)) :
    ∀ buf, (∀ c ∈ buf, isNL c = false) →
      runnerFeedFrom buf cs = lineScan buf cs.flatten := by
  induction cs with
  | nil => intro buf h; simp [runnerFeedFrom, lineScan]
  | cons d es ih =>
    intro buf h
    rw [runnerFeedFrom_cons, runnerChunkStep_eq_lineScan d buf h,
      ih _ (lineScan_no_nl d buf h)]
    rw [show (d :: es).flatten = d ++ es.flatten from rfl, lineScan_append]

theorem runnerFeed_eq (cs : List (List Char)) :
    runnerFeed cs = lineScan [] cs.flatten :=
  runnerFeedFrom_eq cs [] (by simp)


/-! ### Helper lemmas for the claim theorems -/

theorem runQProcess_raised (env : Env) (p : String) (a : List String) (t : String)
    (s : WorkerState) : (runQProcess env p a t s).raised = false := by
  by_cases hc : s.isCancelled = true <;> by_cases hs : env.startOk = true <;>
    simp [runQProcess, handleCancellationDuringStep, handleError, cleanupTempFiles, hc, hs]

theorem executePaletteGeneration_raised (env : Env) (s : WorkerState) :
    (executePaletteGeneration env s).raised = false := by
  by_cases ht : env.tempDirOk = true <;>
    simp [executePaletteGeneration, handleError, cleanupTempFiles, ht,
      runQProcess_raised]

theorem estimateFramesStep_isSome (env : Env) (s : WorkerState) :
    (estimateFramesStep env s).state.estimatedTotalFrames.isSome = true := by
  unfold estimateFramesStep
  by_cases hd : durationTruthy s.settings.total_duration = true
  · simp only [hd, if_true]
    rcases hdur : s.settings.total_duration with _ | d
    · simp [hdur]
    · rcases hfps : (if s.settings.fps ≠ -1 then some (s.settings.fps : ℚ)
          else env.detectedFps) with _ | f
      · simp [hdur, hfps]
      · by_cases hf : f ≠ 0 <;> simp [hdur, hfps, hf]
  · simp [hd]

theorem pyRound_fifty :
    pyRound (min 100 (((5000000 : ℕ) : ℚ) / (10 * 1000000) * 100)) = 50 := by
  have h : (min 100 (((5000000 : ℕ) : ℚ) / (10 * 1000000) * 100)) = 50 := by norm_num
  rw [h]
  have := pyRound_intCast 50
  norm_num at this
  exact this

theorem isPre_refl_append (p x : List Char) : List.isPrefixOf p (p ++ x) = true := by
  induction p with
  | nil => simp [List.isPrefixOf]
  | cons c cs ih => simp [List.isPrefixOf, ih]

theorem strStarts_self_append (pre x : String) : strStarts pre (pre ++ x) = true := by
  simp [strStarts, String.data_append, isPre_refl_append]

theorem fps_not_scale (x : String) :
    strStarts "scale=" ("fps=" ++ x) = false := by
  simp +decide [strStarts, String.data_append, List.isPrefixOf]

theorem setpts_not_scale (x : String) :
    strStarts "scale=" ("setpts=PTS/" ++ x) = false := by
  simp +decide [strStarts, String.data_append, List.isPrefixOf]

theorem palettegen_not_scale (x : String) :
    strStarts "scale=" ("palettegen=stats_mode=" ++ x) = false := by
  simp +decide [strStarts, String.data_append, List.isPrefixOf]

theorem renderLineFold_acc (lines : List String) :
    ∀ s acc, lines.foldl (fun acc line =>
        let r := processStdoutLine "ffmpeg-render" line acc.1
        (r.state, acc.2 ++ r.outs)) (s, acc) =
      ((renderLineFold lines s).1, acc ++ (renderLineFold lines s).2) := by
  induction lines with
  | nil => intro s acc; simp [renderLineFold]
  | cons l ls ih =>
    intro s acc
    rw [List.foldl_cons]
    show ls.foldl _ ((processStdoutLine "ffmpeg-render" l s).state,
      acc ++ (processStdoutLine "ffmpeg-render" l s).outs) = _
    rw [ih]
    have hc : renderLineFold (l :: ls) s =
        ((renderLineFold ls (processStdoutLine "ffmpeg-render" l s).state).1,
         (processStdoutLine "ffmpeg-render" l s).outs ++
           (renderLineFold ls (processStdoutLine "ffmpeg-render" l s).state).2) := by
      show List.foldl _ _ (l :: ls) = _
      rw [List.foldl_cons]
      show ls.foldl _ ((processStdoutLine "ffmpeg-render" l s).state,
        [] ++ (processStdoutLine "ffmpeg-render" l s).outs) = _
      rw [ih]
      simp
    rw [hc]
    simp

theorem renderLineFold_spec (lines : List String) :
    ∀ (usList : List ℕ) (s : WorkerState), s.settings = stGifFix →
      s.currentStep = .render →
      lines.map reSearchOutTime = usList.map some →
      progressValues (renderLineFold lines s).2 =
        usList.map (fun (us : ℕ) => emitWeightedValue .render
          (min 100 ((us : ℚ) / (10 * 1000000) * 100))) ∧
      (renderLineFold lines s).1.settings = stGifFix ∧
      (renderLineFold lines s).1.currentStep = .render ∧
      (renderLineFold lines s).1.isCancelled = s.isCancelled ∧
      (renderLineFold lines s).1.currentProc = s.currentProc ∧
      (renderLineFold lines s).1.tempDirActive = s.tempDirActive := by
  induction lines with
  | nil =>
    intro usList s h1 h2 h3
    have : usList = [] := by
      cases usList with
      | nil => rfl
      | cons a t => simp at h3
    subst this
    simp [renderLineFold, progressValues, h1, h2]
  | cons l ls ih =>
    intro usList s h1 h2 h3
    cases usList with
    | nil => simp at h3
    | cons u us =>
      simp only [List.map_cons, List.cons.injEq] at h3
      obtain ⟨hu, hus⟩ := h3
      have hstep : (processStdoutLine "ffmpeg-render" l s).state.settings = stGifFix ∧
          (processStdoutLine "ffmpeg-render" l s).state.currentStep = .render ∧
          (processStdoutLine "ffmpeg-render" l s).state.isCancelled = s.isCancelled ∧
          (processStdoutLine "ffmpeg-render" l s).state.currentProc = s.currentProc ∧
          (processStdoutLine "ffmpeg-render" l s).state.tempDirActive = s.tempDirActive ∧
          progressValues (processStdoutLine "ffmpeg-render" l s).outs =
            [emitWeightedValue .render (min 100 ((u : ℚ) / (10 * 1000000) * 100))] := by
        have hdt : durationTruthy (some (10 : ℚ)) = true := by decide
        rcases hfm : reSearchFrame l with _ | k
        · simp [processStdoutLine, hfm, hu, h1, h2, hdt, stGifFix,
            progressValues, emitWeighted]
        · by_cases hk : k > s.ffmpegFrameCount <;>
            simp [processStdoutLine, hfm, hu, h1, h2, hdt, hk, stGifFix,
              progressValues, emitWeighted]
      have hc : renderLineFold (l :: ls) s =
          ((renderLineFold ls (processStdoutLine "ffmpeg-render" l s).state).1,
           (processStdoutLine "ffmpeg-render" l s).outs ++
             (renderLineFold ls (processStdoutLine "ffmpeg-render" l s).state).2) := by
        show List.foldl _ _ (l :: ls) = _
        rw [List.foldl_cons]
        show ls.foldl _ ((processStdoutLine "ffmpeg-render" l s).state,
          [] ++ (processStdoutLine "ffmpeg-render" l s).outs) = _
        rw [renderLineFold_acc]
        simp
      obtain ⟨hs1, hs2, hs3, hs4, hs5, hpv⟩ := hstep
      have HI := ih us (processStdoutLine "ffmpeg-render" l s).state hs1 hs2 hus
      rw [hc]
      simp only [progressValues, List.filterMap_append] at HI ⊢
      refine ⟨?_, HI.2.1, HI.2.2.1, ?_, ?_, ?_⟩
      · rw [List.map_cons]
        simp only [progressValues] at hpv
        rw [hpv, HI.1]
        rfl
      · rw [HI.2.2.2.1, hs3]
      · rw [HI.2.2.2.2.1, hs4]
      · rw [HI.2.2.2.2.2, hs5]

theorem opf_render_done (env : Env) (s : WorkerState) (proc : ProcHandle)
    (hproc : s.currentProc = some proc) (hcancel : s.isCancelled = false)
    (hstep : s.currentStep = .render)
    (hgif : isWebpOutput s.settings.output_file = false)
    (hstart : env.startOk = true) :
    progressValues (onProcessFinished env 0 false s).outs =
      [emitWeightedValue .render 100, emitWeightedValue .optimize 30] ∧
    (onProcessFinished env 0 false s).state.currentStep = .optimize ∧
    (onProcessFinished env 0 false s).state.isCancelled = false ∧
    (onProcessFinished env 0 false s).state.currentProc =
      some ⟨s.settings.gifsicle_path, workerOptimizeArgs s.settings,
        "gifsicle-optimize"⟩ ∧
    (onProcessFinished env 0 false s).state.settings = s.settings ∧
    (onProcessFinished env 0 false s).state.tempDirActive = s.tempDirActive := by
  simp only [onProcessFinished, hproc, hcancel, hstep]
  rw [if_neg (by simp), if_neg (by simp)]
  simp only [StepResult.andThen, startNextStep, executeGifOptimization, hgif,
    runQProcess]
  simp [hstart, progressValues, emitWeighted]

theorem opf_optimize_done (env : Env) (s : WorkerState) (proc : ProcHandle)
    (hproc : s.currentProc = some proc) (hcancel : s.isCancelled = false)
    (hstep : s.currentStep = .optimize) :
    progressValues (onProcessFinished env 0 false s).outs =
      [emitWeightedValue .optimize 100, 100] := by
  simp only [onProcessFinished, hproc, hcancel, hstep]
  rw [if_neg (by simp), if_neg (by simp)]
  simp only [StepResult.andThen, startNextStep, finalizeConversion, cleanupTempFiles]
  by_cases ht : s.tempDirActive <;> simp [ht, progressValues, emitWeighted]

theorem emitWeightedValue_render_0 : emitWeightedValue .render 0 = 10 := by
  rw [emitWeightedValue, weightDone_render, stepWeightGet_render]
  unfold pyRound
  norm_num

theorem emitWeightedValue_render_formula (p : ℚ) :
    emitWeightedValue .render p = pyRound (10 + 70 * p / 100) := by
  rw [emitWeightedValue, weightDone_render, stepWeightGet_render]

theorem pyRound_ten : pyRound (10 : ℚ) = 10 := by
  have := pyRound_intCast 10
  norm_num at this
  exact this

theorem pyRound_eighty : pyRound (80 : ℚ) = 80 := by
  have := pyRound_intCast 80
  norm_num at this
  exact this

theorem render_value_bounds (us : ℕ) :
    10 ≤ pyRound (10 + 70 * min 100 ((us : ℚ) / (10 * 1000000) * 100) / 100) ∧
    pyRound (10 + 70 * min 100 ((us : ℚ) / (10 * 1000000) * 100) / 100) ≤ 80 := by
  have h0 : (0 : ℚ) ≤ min 100 ((us : ℚ) / (10 * 1000000) * 100) := by
    have : (0 : ℚ) ≤ (us : ℚ) / (10 * 1000000) * 100 := by positivity
    exact le_min (by norm_num) this
  have h100 : min 100 ((us : ℚ) / (10 * 1000000) * 100) ≤ 100 := min_le_left _ _
  constructor
  · calc (10 : ℤ) = pyRound (10 : ℚ) := pyRound_ten.symm
    _ ≤ _ := pyRound_mono (by linarith)
  · calc pyRound (10 + 70 * min 100 ((us : ℚ) / (10 * 1000000) * 100) / 100)
        ≤ pyRound (80 : ℚ) := pyRound_mono (by linarith)
    _ = 80 := pyRound_eighty

theorem render_value_mono {a b : ℕ} (h : a ≤ b) :
    pyRound (10 + 70 * min 100 ((a : ℚ) / (10 * 1000000) * 100) / 100) ≤
    pyRound (10 + 70 * min 100 ((b : ℚ) / (10 * 1000000) * 100) / 100) := by
  apply pyRound_mono
  have hab : (a : ℚ) / (10 * 1000000) * 100 ≤ (b : ℚ) / (10 * 1000000) * 100 := by
    have : (a : ℚ) ≤ (b : ℚ) := by exact_mod_cast h
    have hpos : (0 : ℚ) < 10 * 1000000 := by norm_num
    gcongr
  have := min_le_min (le_refl (100 : ℚ)) hab
  linarith

theorem progressValues_append (a b : List Sig) :
    progressValues (a ++ b) = progressValues a ++ progressValues b :=
  List.filterMap_append a b _

theorem gifRunTrace_values (lines : List String) (usList : List ℕ)
    (hp : lines.map reSearchOutTime = usList.map some) :
    progressValues (gifRunTrace envFix stGifFix lines) =
      [0, 10, 10] ++
        usList.map (fun (us : ℕ) =>
          pyRound (10 + 70 * min 100 ((us : ℚ) / (10 * 1000000) * 100) / 100)) ++
        [80, 86, 100, 100] := by
  have HF := renderLineFold_spec lines usList
    (onProcessFinished envFix 0 false
      (runConversion envFix (initState stGifFix)).state).state rfl rfl hp
  obtain ⟨hfpv, hfset, hfstep, hfcanc, hfproc, hftemp⟩ := HF
  have hproc2 : (renderLineFold lines (onProcessFinished envFix 0 false
      (runConversion envFix (initState stGifFix)).state).state).1.currentProc =
      some ⟨"ffmpeg", workerGifRenderArgs stGifFix palPathStr, "ffmpeg-render"⟩ := by
    rw [hfproc]
    exact rfl
  have hcanc2 : (renderLineFold lines (onProcessFinished envFix 0 false
      (runConversion envFix (initState stGifFix)).state).state).1.isCancelled = false := by
    rw [hfcanc]
    exact rfl
  have H2 := opf_render_done envFix _ _ hproc2 hcanc2 hfstep
    (by rw [hfset]; decide) rfl
  obtain ⟨h2pv, h2step, h2canc, h2proc, h2set, _⟩ := H2
  have H3 := opf_optimize_done envFix _ _ (by rw [h2proc]) h2canc h2step
  show progressValues (_ ++ _ ++ _ ++ _ ++ _) = _
  rw [progressValues_append, progressValues_append, progressValues_append,
    progressValues_append]
  rw [show progressValues (runConversion envFix (initState stGifFix)).outs =
    [emitWeightedValue .palette 5] from rfl]
  rw [show progressValues (onProcessFinished envFix 0 false
      (runConversion envFix (initState stGifFix)).state).outs =
    [emitWeightedValue .palette 100, emitWeightedValue .render 0] from rfl]
  rw [hfpv, h2pv, H3]
  rw [emitWeightedValue_palette_5, emitWeightedValue_palette_100,
    emitWeightedValue_render_0, emitWeightedValue_render_100,
    emitWeightedValue_optimize_30, emitWeightedValue_optimize_100]
  have hfun : (fun (us : ℕ) => emitWeightedValue .render
      (min 100 ((us : ℚ) / (10 * 1000000) * 100))) =
      (fun (us : ℕ) =>
        pyRound (10 + 70 * min 100 ((us : ℚ) / (10 * 1000000) * 100) / 100)) :=
    funext fun us => emitWeightedValue_render_formula _
  rw [hfun]
  simp

theorem chain_tail_const : List.Chain' (· ≤ ·) ([80, 86, 100, 100] : List ℤ) := by
  simp [List.chain'_cons]

theorem gifRunTrace_monotone (lines : List String) (usList : List ℕ)
    (hp : lines.map reSearchOutTime = usList.map some)
    (hm : usList.Chain' (· ≤ ·)) :
    (progressValues (gifRunTrace envFix stGifFix lines)).Chain' (· ≤ ·) ∧
    (progressValues (gifRunTrace envFix stGifFix lines)).head? = some 0 ∧
    (progressValues (gifRunTrace envFix stGifFix lines)).getLast? = some 100 := by
  rw [gifRunTrace_values lines usList hp]
  set f : ℕ → ℤ := fun us =>
    pyRound (10 + 70 * min 100 ((us : ℚ) / (10 * 1000000) * 100) / 100) with hf
  have hMbound : ∀ x ∈ usList.map f, 10 ≤ x ∧ x ≤ 80 := by
    intro x hx
    obtain ⟨u, _, rfl⟩ := List.mem_map.mp hx
    exact render_value_bounds u
  have hMchain : (usList.map f).Chain' (· ≤ ·) :=
    List.chain'_map_of_chain' f (fun a b hab => render_value_mono hab) hm
  have hTail : ((usList.map f) ++ [80, 86, 100, 100]).Chain' (· ≤ ·) := by
    refine List.Chain'.append hMchain chain_tail_const ?_
    intro x hx y hy
    have hxm := List.mem_of_mem_getLast? hx
    have hx80 := (hMbound x hxm).2
    simp at hy
    omega
  refine ⟨?_, ?_, ?_⟩
  · rw [List.append_assoc]
    refine List.Chain'.append (by simp [List.chain'_cons]) hTail ?_
    intro x hx y hy
    simp at hx
    cases husl : usList with
    | nil =>
      subst husl
      simp at hy
      omega
    | cons u us =>
      subst husl
      simp only [List.map_cons, List.cons_append, List.head?_cons,
        Option.mem_def, Option.some.injEq] at hy
      have h10 := (hMbound (f u) (by simp)).1
      omega
  · rfl
  · rw [List.getLast?_append_of_ne_nil _ (by simp)]
    rfl


theorem specWeightBefore_palette : specWeightBefore .palette = 0 := by
  simp +decide [specWeightBefore, pipelineOrder]

theorem specWeightBefore_render : specWeightBefore .render = 10 := by
  simp +decide [specWeightBefore, pipelineOrder, stepWeightGet, STEP_WEIGHTS]

theorem specWeightBefore_optimize : specWeightBefore .optimize = 80 := by
  simp +decide [specWeightBefore, pipelineOrder, stepWeightGet, STEP_WEIGHTS]
  norm_num

theorem specWeightBefore_finished : specWeightBefore .finished = 100 := by
  simp +decide [specWeightBefore, pipelineOrder, stepWeightGet, STEP_WEIGHTS]
  norm_num

theorem stepWeights_sum : (STEP_WEIGHTS.map Prod.snd).sum = 100 := by
  simp [STEP_WEIGHTS]
  norm_num

theorem scale_not_pad (x : String) : strStarts "pad" ("scale=" ++ x) = false := by
  simp +decide [strStarts, String.data_append, List.isPrefixOf]

theorem crop_not_pad (x : String) : strStarts "pad" ("crop=" ++ x) = false := by
  simp +decide [strStarts, String.data_append, List.isPrefixOf]

theorem scale_not_crop (x : String) : strStarts "crop=" ("scale=" ++ x) = false := by
  simp +decide [strStarts, String.data_append, List.isPrefixOf]

theorem fps_not_crop (x : String) : strStarts "crop=" ("fps=" ++ x) = false := by
  simp +decide [strStarts, String.data_append, List.isPrefixOf]

theorem setpts_not_crop (x : String) : strStarts "crop=" ("setpts=PTS/" ++ x) = false := by
  simp +decide [strStarts, String.data_append, List.isPrefixOf]

theorem palettegen_not_crop (x : String) :
    strStarts "crop=" ("palettegen=stats_mode=" ++ x) = false := by
  simp +decide [strStarts, String.data_append, List.isPrefixOf]


/-! ### The claims -/

/-- C1, counterexample: the claim asserts the error-termination path for the
WebP render too, but `on_webp_finished` ignores the exit code/status.  With
exit code 1 and no cancellation, the emitted terminal result is a Success
with no error flag, and the job advances to FINISHED. -/
theorem gifmaker_C1_counterexample :
    ((onWebpFinished 1 false sWebpRunFix).outs.filter isFinishedSig) =
      [Sig.finished true "Success" "GIF saved.\nFrames: N/A\nOutput: out.webp" false] ∧
    (onWebpFinished 1 false sWebpRunFix).state.currentStep = Step.finished := by
  constructor
  · decide
  · decide

/-- C1, amended: for the steps handled by `_on_process_finished` (palette,
GIF render, optimize), a crash or non-zero exit with no cancellation emits
exactly one terminal result — success=false, title "Error", is-error set,
detail carrying the process's log tag and the exit code — launches no further
process and resets the state machine to IDLE; the WebP render's own finished
handler ignores the exit status and always takes the success path. -/
theorem gifmaker_C1 (env : Env) (exitCode : ℤ) (crashed : Bool)
    (s : WorkerState) (proc : ProcHandle)
    (hproc : s.currentProc = some proc)
    (hcancel : s.isCancelled = false)
    (hfail : crashed = true ∨ exitCode ≠ 0) :
    ((onProcessFinished env exitCode crashed s).outs.filter isFinishedSig) =
      [Sig.finished false "Error"
        (proc.log_tag ++ ": exited with code " ++ toString exitCode) true] ∧
    ((onProcessFinished env exitCode crashed s).outs.all fun o => !isStartSig o) = true ∧
    (onProcessFinished env exitCode crashed s).state.currentStep = .idle ∧
    (onProcessFinished env exitCode crashed s).raised = false := by
  have hfail2 : crashed = true ∨ ¬ exitCode = 0 := hfail
  simp only [onProcessFinished, hproc, hcancel]
  rw [if_neg (by simp), if_pos hfail2]
  by_cases ht : s.tempDirActive <;>
    simp [handleError, cleanupTempFiles, isFinishedSig, isStartSig, ht]

/-- C1, witness: the amended theorem applied to a render process exiting
with code 2, no cancellation. -/
theorem gifmaker_C1_witness :
    ((onProcessFinished envFix 2 false sRenderFix).outs.filter isFinishedSig) =
      [Sig.finished false "Error" ("ffmpeg-render" ++ ": exited with code " ++
        toString (2 : ℤ)) true] ∧
    ((onProcessFinished envFix 2 false sRenderFix).outs.all fun o => !isStartSig o) = true ∧
    (onProcessFinished envFix 2 false sRenderFix).state.currentStep = .idle ∧
    (onProcessFinished envFix 2 false sRenderFix).raised = false :=
  gifmaker_C1 envFix 2 false sRenderFix procRenderFix rfl rfl (Or.inr (by decide))

/-- C2, counterexample: a crashed render process triggers both
`_on_process_error` and `_on_process_finished` (Qt delivers `errorOccurred`
then `finished`), and each emits a terminal result: two terminal results for
one job ending, contradicting "exactly once". -/
theorem gifmaker_C2_counterexample :
    countFinished ((onProcessError .crashed sRenderFix).outs ++
      (onProcessFinished envFix 9 true (onProcessError .crashed sRenderFix).state).outs) =
      2 := by decide

/-- C2, amended: every ending funnels through one of the three termination
routines, and each invocation of a termination routine emits exactly one
terminal result; but one ending can invoke two routines (a crash reaches
both the error-occurred handler and the finished handler), so a job's
terminal result is emitted at least once but not always exactly once. -/
theorem gifmaker_C2 (s : WorkerState) (msg : String) :
    countFinished (handleError msg s).outs = 1 ∧
    countFinished (handleCancellationDuringStep s).outs = 1 ∧
    countFinished (finalizeConversion s).outs = 1 := by
  by_cases ht : s.tempDirActive <;>
    simp [handleError, handleCancellationDuringStep, finalizeConversion,
      cleanupTempFiles, countFinished, isFinishedSig, ht]

/-- C3, counterexample: a GIF render finishing normally with a running frame
count of exactly 1 still advances RENDER→OPTIMIZE and launches gifsicle —
there is no single-frame short-circuit in the code. -/
theorem gifmaker_C3_counterexample :
    sRender1Fix.ffmpegFrameCount = 1 ∧
    (onProcessFinished envFix 0 false sRender1Fix).state.currentStep = Step.optimize ∧
    Sig.startProc "gifsicle" (workerOptimizeArgs stGifFix) "gifsicle-optimize" ∈
      (onProcessFinished envFix 0 false sRender1Fix).outs := by
  refine ⟨rfl, by decide, by decide⟩

/-- C3, amended: on normal render exit of a GIF job (no cancellation,
process starts fine) the state machine always advances RENDER→OPTIMIZE and
launches the gifsicle optimizer, regardless of the frame count; OPTIMIZE is
skipped only for WebP output paths. -/
theorem gifmaker_C3 (env : Env) (s : WorkerState) (proc : ProcHandle)
    (hproc : s.currentProc = some proc)
    (hcancel : s.isCancelled = false)
    (hstep : s.currentStep = .render)
    (hgif : isWebpOutput s.settings.output_file = false)
    (hstart : env.startOk = true) :
    (onProcessFinished env 0 false s).state.currentStep = Step.optimize ∧
    Sig.startProc s.settings.gifsicle_path (workerOptimizeArgs s.settings)
        "gifsicle-optimize" ∈ (onProcessFinished env 0 false s).outs := by
  simp only [onProcessFinished, hproc, hcancel, hstep]
  rw [if_neg (by simp), if_neg (by simp)]
  simp only [StepResult.andThen, startNextStep, executeGifOptimization, hgif,
    runQProcess]
  simp [hstart]

/-- C3, witness: the amended theorem at the concrete render state (with
frame count 0). -/
theorem gifmaker_C3_witness :
    (onProcessFinished envFix 0 false sRenderFix).state.currentStep = Step.optimize ∧
    Sig.startProc sRenderFix.settings.gifsicle_path
        (workerOptimizeArgs sRenderFix.settings) "gifsicle-optimize" ∈
      (onProcessFinished envFix 0 false sRenderFix).outs :=
  gifmaker_C3 envFix sRenderFix procRenderFix rfl rfl rfl (by decide) rfl

/-- C4: the code at the claim's failing input.  For the WebP job with a
known 10 s duration, the run leaves `current_step` at IDLE, so the progress
line `out_time_ms=5000000` (50 % step-local) is emitted with numeric global
percentage 0 — the weighting is applied with the IDLE step, whose weight is
0 — while the message text of the very same emission reports "50 %". -/
theorem gifmaker_C4 :
    (runConversion envFix (initState stWebpFix)).state.currentStep = Step.idle ∧
    (processStdoutLine "ffmpeg-render" "out_time_ms=5000000"
        (runConversion envFix (initState stWebpFix)).state).outs =
      [Sig.progress 0 "Rendering GIF: 50 %"] ∧
    (processStdoutLine "ffmpeg-render" "out_time_ms=5000000"
        (runConversion envFix (initState stWebpFix)).state).raised = false := by
  have hstate : (runConversion envFix (initState stWebpFix)).state =
      { initState stWebpFix with
          currentProc := some ⟨"ffmpeg", workerWebpArgs stWebpFix, "ffmpeg-render"⟩,
          procRunning := true } := by decide
  refine ⟨by rw [hstate]; rfl, ?_, ?_⟩
  · rw [hstate]
    simp only [processStdoutLine, if_pos rfl]
    have hfm : reSearchFrame "out_time_ms=5000000" = none := by decide
    have hot : reSearchOutTime "out_time_ms=5000000" = some 5000000 := by decide
    simp only [hfm, hot]
    have hdt : durationTruthy (some (10 : ℚ)) = true := by decide
    simp only [initState, stWebpFix, stGifFix]
    simp only [hdt, if_true]
    simp only [emitWeighted, emitWeightedValue_idle, pyRound_fifty]
    rfl
  · rw [hstate]
    simp only [processStdoutLine, if_pos rfl]
    decide

/-- C5, counterexample: with width = height = -1 the spec's policy emits no
scale filter, but the orchestrator's inline palette chain contains
`scale=-1:-1:flags=lanczos` unconditionally. -/
theorem gifmaker_C5_counterexample :
    scaleCropPolicy (-1) (-1) = [] ∧
    "scale=-1:-1:flags=lanczos" ∈ workerPaletteFilters stAllAutoFix := by
  constructor
  · decide
  · decide

/-- C5, amended: the engine's `_add_scale_crop` implements the spec's
scale/crop policy exactly (and never emits padding); the orchestrator's
inline palette/GIF-render/WebP-render chains instead always contain exactly
one `scale=W:H:flags=lanczos` filter and never a crop filter. -/
theorem gifmaker_C5 :
    (∀ w h : ℤ, addScaleCrop w h = scaleCropPolicy w h) ∧
    (∀ w h : ℤ, ((addScaleCrop w h).all fun f => !(strStarts "pad" f)) = true) ∧
    (∀ st : ConverterSettings,
      (workerPaletteFilters st).countP (fun f => strStarts "scale=" f) = 1 ∧
      (workerGifChain st).countP (fun f => strStarts "scale=" f) = 1 ∧
      (workerWebpFilters st).countP (fun f => strStarts "scale=" f) = 1 ∧
      ((workerPaletteFilters st).all fun f => !(strStarts "crop=" f)) = true ∧
      ((workerGifChain st).all fun f => !(strStarts "crop=" f)) = true ∧
      ((workerWebpFilters st).all fun f => !(strStarts "crop=" f)) = true) := by
  refine ⟨?_, ?_, ?_⟩
  · intro w h
    unfold addScaleCrop scaleCropPolicy
    by_cases hw : w = -1 <;> by_cases hh : h = -1 <;> simp [hw, hh]
  · intro w h
    unfold addScaleCrop
    split_ifs <;>
      simp [String.append_assoc, scale_not_pad, crop_not_pad]
  · intro st
    unfold workerPaletteFilters workerGifChain workerWebpFilters
      fpsFilterList speedFilterList
    by_cases hf : st.fps ≠ -1 <;>
      by_cases hm : st.speed_multiplier ≠ 0 ∧ st.speed_multiplier ≠ 1 <;>
      simp +decide [hf, hm, List.countP_append, List.countP_cons,
        String.append_assoc, strStarts_self_append, fps_not_scale,
        setpts_not_scale, palettegen_not_scale, scale_not_crop, fps_not_crop,
        setpts_not_crop, palettegen_not_crop]

/-- C6, counterexample: the legacy worker stdout handler clears its buffer
on every chunk, so feeding "ab" then "c\n" emits the partial line "ab"
immediately and the complete line "abc" is never emitted — unlike the
runner's canonical splitting of the same stream. -/
theorem gifmaker_C6_counterexample :
    workerFeed ["ab".data, "c\n".data] = ([['a', 'b'], ['c']], []) ∧
    runnerFeed ["ab".data, "c\n".data] = ([['a', 'b', 'c']], []) ∧
    workerFeed ["ab".data, "c\n".data] ≠ runnerFeed ["ab".data, "c\n".data] := by
  refine ⟨by decide, by decide, by decide⟩

/-- C6, amended: the claim holds for `ProcessRunner`'s handlers — for every
chunking of the stream, the runner emits exactly the completed lines of the
joined stream, once each and in order (`lineScan` is the canonical
per-character splitter, which emits a line exactly at the newline run that
terminates it), retains the trailing partial line in the buffer, never emits
empty lines, and never holds a newline in the buffer.  The legacy
`Worker._on_process_ready_read_stdout` does not have this property (see the
counterexample). -/
theorem gifmaker_C6 (cs : List (List Char)) :
    runnerFeed cs = lineScan [] cs.flatten ∧
    ((lineScan [] cs.flatten).1.all fun l => !l.isEmpty) = true ∧
    ((lineScan [] cs.flatten).2.all fun c => !isNL c) = true := by
  refine ⟨runnerFeed_eq cs, ?_, ?_⟩
  · rw [List.all_eq_true]
    intro l hl
    have := lineScan_out_nonempty cs.flatten [] l hl
    simpa using this
  · rw [List.all_eq_true]
    intro c hc
    have := lineScan_no_nl cs.flatten [] (by simp) c hc
    simp [this]

/-- C7: cancellation protocol.  A second cancellation request is a no-op;
a first request with an active process logs, requests graceful termination
and arms the single-shot 100 ms kill timer; when the timer fires the process
is force-killed exactly when it is still running; and the cancellation
termination path emits exactly one terminal result — "Cancelled", not an
error — and removes the temporary directory before the handler returns. -/
theorem gifmaker_C7 :
    (∀ s, s.isCancelled = true → requestCancellation s = ⟨s, [], false⟩) ∧
    (∀ s proc, s.isCancelled = false → s.currentProc = some proc →
      s.procRunning = true →
      (requestCancellation s).outs =
        [.logPlain "Cancellation requested by user." false,
         .logPlain ("Terminating " ++ proc.program ++ " ...") false,
         .terminateProc proc.program, .armKillTimer 100] ∧
      (requestCancellation s).state.killTimerActive = true ∧
      (requestCancellation s).state.isCancelled = true) ∧
    (∀ s proc, s.currentProc = some proc → s.procRunning = true →
      (forceKillIfRunning s).outs.count Sig.killProc = 1) ∧
    (∀ s, s.procRunning = false → (forceKillIfRunning s).outs = []) ∧
    (∀ s, (handleCancellationDuringStep s).outs.filter isFinishedSig =
        [Sig.finished false "Cancelled" "Operation was cancelled by user." false] ∧
      (s.tempDirActive = true →
        Sig.cleanupTempDir ∈ (handleCancellationDuringStep s).outs) ∧
      (handleCancellationDuringStep s).state.tempDirActive = false) := by
  refine ⟨?_, ?_, ?_, ?_, ?_⟩
  · intro s h
    simp [requestCancellation, h]
  · intro s proc h1 h2 h3
    simp [requestCancellation, h1, h2, h3]
  · intro s proc h1 h2
    simp [forceKillIfRunning, h1, h2]
  · intro s h
    cases hp : s.currentProc <;> simp [forceKillIfRunning, h, hp]
  · intro s
    by_cases ht : s.tempDirActive <;>
      simp [handleCancellationDuringStep, cleanupTempFiles, isFinishedSig, ht]

/-- C7, witness: the cancellation protocol at the concrete mid-render
state. -/
theorem gifmaker_C7_witness :
    requestCancellation { sRenderFix with isCancelled := true } =
      ⟨{ sRenderFix with isCancelled := true }, [], false⟩ ∧
    (requestCancellation sRenderFix).outs =
      [.logPlain "Cancellation requested by user." false,
       .logPlain ("Terminating " ++ "ffmpeg" ++ " ...") false,
       .terminateProc "ffmpeg", .armKillTimer 100] ∧
    (forceKillIfRunning sRenderFix).outs.count Sig.killProc = 1 ∧
    Sig.cleanupTempDir ∈ (handleCancellationDuringStep sRenderFix).outs :=
  ⟨gifmaker_C7.1 _ rfl,
   (gifmaker_C7.2.1 sRenderFix procRenderFix rfl rfl rfl).1,
   gifmaker_C7.2.2.1 sRenderFix procRenderFix rfl rfl,
   (gifmaker_C7.2.2.2.2 sRenderFix).2.1 rfl⟩

/-- C8: the step-weight table maps PALETTE→10, RENDER→70, OPTIMIZE→20,
summing to 100; every weighted emission equals the spec's formula
round(weights-before + weight·local/100) (for every step the orchestrator
can be at while emitting); and over a full successful GIF run whose render
step reports non-decreasing elapsed times, the emitted global percentages
are the concrete non-decreasing sequence from 0 to 100. -/
theorem gifmaker_C8 :
    (stepWeightGet .palette 0 = 10 ∧ stepWeightGet .render 0 = 70 ∧
     stepWeightGet .optimize 0 = 20 ∧ (STEP_WEIGHTS.map Prod.snd).sum = 100) ∧
    (∀ (cur : Step) (p : ℚ), cur ≠ .idle →
      emitWeightedValue cur p =
        pyRound (specWeightBefore cur + stepWeightGet cur 0 * p / 100)) ∧
    (∀ (lines : List String) (usList : List ℕ),
      lines.map reSearchOutTime = usList.map some →
      usList.Chain' (· ≤ ·) →
      progressValues (gifRunTrace envFix stGifFix lines) =
        [0, 10, 10] ++ usList.map (fun (us : ℕ) =>
          pyRound (10 + 70 * min 100 ((us : ℚ) / (10 * 1000000) * 100) / 100)) ++
        [80, 86, 100, 100] ∧
      (progressValues (gifRunTrace envFix stGifFix lines)).Chain' (· ≤ ·) ∧
      (progressValues (gifRunTrace envFix stGifFix lines)).head? = some 0 ∧
      (progressValues (gifRunTrace envFix stGifFix lines)).getLast? = some 100) := by
  refine ⟨⟨rfl, rfl, rfl, stepWeights_sum⟩, ?_, ?_⟩
  · intro cur p h
    cases cur with
    | idle => exact absurd rfl h
    | palette =>
      rw [emitWeightedValue, weightDone_palette, stepWeightGet_palette,
        specWeightBefore_palette]
    | render =>
      rw [emitWeightedValue, weightDone_render, stepWeightGet_render,
        specWeightBefore_render]
    | optimize =>
      rw [emitWeightedValue, weightDone_optimize, stepWeightGet_optimize,
        specWeightBefore_optimize]
    | finished =>
      rw [emitWeightedValue, weightDone_finished, stepWeightGet_finished,
        specWeightBefore_finished]
  · intro lines usList hp hm
    exact ⟨gifRunTrace_values lines usList hp,
      (gifRunTrace_monotone lines usList hp hm).1,
      (gifRunTrace_monotone lines usList hp hm).2.1,
      (gifRunTrace_monotone lines usList hp hm).2.2⟩

/-- C8, witness: the formula at RENDER with 50 % step-local progress, and
the full-run sequence for a single elapsed-time line at 5 s of 10 s. -/
theorem gifmaker_C8_witness :
    emitWeightedValue .render 50 =
      pyRound (specWeightBefore .render + stepWeightGet .render 0 * 50 / 100) ∧
    (progressValues (gifRunTrace envFix stGifFix ["out_time_ms=5000000"])).Chain'
      (· ≤ ·) ∧
    (progressValues (gifRunTrace envFix stGifFix ["out_time_ms=5000000"])).head? =
      some 0 ∧
    (progressValues (gifRunTrace envFix stGifFix ["out_time_ms=5000000"])).getLast? =
      some 100 := by
  have h := gifmaker_C8.2.2 ["out_time_ms=5000000"] [5000000] (by decide)
    (List.chain'_singleton _)
  exact ⟨gifmaker_C8.2.1 .render 50 (by decide), h.2.1, h.2.2.1, h.2.2.2⟩

/-- C9, counterexample: the worker's WebP render argument list contains the
`-loop` flag twice (an unconditional `-loop 0` plus the loop-flag pair),
contradicting "exactly once". -/
theorem gifmaker_C9_counterexample :
    (workerWebpArgs stWebpFix).count "-loop" = 2 ∧
    adjacentPair "-loop" "0" (workerWebpArgs stWebpFix) = true := by
  constructor
  · decide
  · decide

set_option maxHeartbeats 1600000 in
/-- C9, amended: the engine's GIF render and WebP render plans, and the
worker's GIF render invocation, contain `-loop` exactly once with value 0
(infinite) when the loop flag is set and 1 (play once) otherwise; the
worker's WebP render invocation contains `-loop` twice — first an
unconditional `-loop 0`, then the flag-driven pair (whose value, being
last, is the effective one).  Hypotheses only exclude free-form fields that
are themselves the literal string "-loop". -/
theorem gifmaker_C9 :
    (∀ (st : ConverterSettings),
      st.input_file ≠ "-loop" → st.output_file ≠ "-loop" →
      String.intercalate "," (workerWebpFilters st) ≠ "-loop" →
      toString st.webp_quality ≠ "-loop" → toString st.webp_compression ≠ "-loop" →
      (workerWebpArgs st).count "-loop" = 2 ∧
      adjacentPair "-loop" "0" (workerWebpArgs st) = true ∧
      adjacentPair "-loop" (if st.loop then "0" else "1") (workerWebpArgs st) = true) ∧
    (∀ (st : ConverterSettings) (palPath : String),
      st.input_file ≠ "-loop" → st.output_file ≠ "-loop" →
      workerGifFilterComplex st ≠ "-loop" → palPath ≠ "-loop" →
      isWebpOutput st.output_file = false →
      (workerGifRenderArgs st palPath).count "-loop" = 1 ∧
      adjacentPair "-loop" (if st.loop then "0" else "1")
        (workerGifRenderArgs st palPath) = true) ∧
    (∀ (job : ConversionJob) (tools : ToolPaths) (palFile : String),
      job.input_file ≠ "-loop" → job.output_file ≠ "-loop" → palFile ≠ "-loop" →
      ("[0:v]" ++ String.intercalate "," (baseFilters job) ++ "[x]" ++
        ";[x][1:v]paletteuse=dither=" ++ job.dither_setting) ≠ "-loop" →
      ("[0:v][1:v]paletteuse=dither=" ++ job.dither_setting) ≠ "-loop" →
      (buildGifRenderPlan job tools palFile).args.count "-loop" = 1 ∧
      adjacentPair "-loop" (if job.loop then "0" else "1")
        (buildGifRenderPlan job tools palFile).args = true) ∧
    (∀ (job : ConversionJob) (tools : ToolPaths),
      job.input_file ≠ "-loop" → job.output_file ≠ "-loop" →
      String.intercalate "," (baseFilters job ++ ["format=rgba"]) ≠ "-loop" →
      toString job.webp_quality ≠ "-loop" → toString job.webp_compression ≠ "-loop" →
      (buildWebpPlan job tools).args.count "-loop" = 1 ∧
      adjacentPair "-loop" (if job.loop then "0" else "1")
        (buildWebpPlan job tools).args = true) := by
  refine ⟨?_, ?_, ?_, ?_⟩
  · intro st h1 h2 h3 h4 h5
    unfold workerWebpArgs
    by_cases hl : st.loop <;> by_cases hll : st.webp_lossless <;>
      by_cases hp : progressFlagActive st.total_duration <;>
      simp +decide [hl, hll, hp, List.count_cons, List.count_append,
        adjacentPair, h1, h2, h3, h4, h5]
  · intro st palPath h1 h2 h3 h4 h5
    unfold workerGifRenderArgs
    by_cases hl : st.loop <;> by_cases hp : progressFlagActive st.total_duration <;>
      simp +decide [hl, hp, h5, List.count_cons, List.count_append,
        adjacentPair, h1, h2, h3, h4]
  · intro job tools palFile h1 h2 h3 h4 h5
    unfold buildGifRenderPlan
    by_cases hl : job.loop <;> by_cases hp : progressFlagActive job.total_duration <;>
      by_cases hc : baseFilters job ≠ [] <;>
      simp +decide [hl, hp, hc, List.count_cons, List.count_append,
        adjacentPair, h1, h2, h3, h4, h5]
  · intro job tools h1 h2 h3 h4 h5
    unfold buildWebpPlan
    by_cases hl : job.loop <;> by_cases hll : job.webp_lossless <;>
      by_cases hp : progressFlagActive job.total_duration <;>
      simp +decide [hl, hll, hp, List.count_cons, List.count_append,
        adjacentPair, h1, h2, h3, h4, h5]

/-- C9, witness: the amended theorem at the concrete jobs. -/
theorem gifmaker_C9_witness :
    ((workerWebpArgs stWebpFix).count "-loop" = 2 ∧
      adjacentPair "-loop" "0" (workerWebpArgs stWebpFix) = true ∧
      adjacentPair "-loop" (if stWebpFix.loop then "0" else "1")
        (workerWebpArgs stWebpFix) = true) ∧
    ((workerGifRenderArgs stGifFix palPathStr).count "-loop" = 1 ∧
      adjacentPair "-loop" (if stGifFix.loop then "0" else "1")
        (workerGifRenderArgs stGifFix palPathStr) = true) ∧
    ((buildGifRenderPlan jobFix toolsFix "p.png").args.count "-loop" = 1 ∧
      adjacentPair "-loop" (if jobFix.loop then "0" else "1")
        (buildGifRenderPlan jobFix toolsFix "p.png").args = true) ∧
    ((buildWebpPlan jobFix toolsFix).args.count "-loop" = 1 ∧
      adjacentPair "-loop" (if jobFix.loop then "0" else "1")
        (buildWebpPlan jobFix toolsFix).args = true) :=
  ⟨gifmaker_C9.1 stWebpFix (by decide) (by decide) (by decide) (by decide) (by decide),
   gifmaker_C9.2.1 stGifFix palPathStr (by decide) (by decide) (by decide)
     (by decide) (by decide),
   gifmaker_C9.2.2.1 jobFix toolsFix "p.png" (by decide) (by decide) (by decide)
     (by decide) (by decide),
   gifmaker_C9.2.2.2 jobFix toolsFix (by decide) (by decide) (by decide)
     (by decide) (by decide)⟩

/-- C10: for a WebP job, `run_conversion` leaves `estimated_total_frames`
unassigned (it is assigned on the GIF branch only — second conjunct), so
when the duration is unknown or zero, a render stdout line carrying a frame
counter makes `_process_stdout_line` read the missing attribute: the handler
raises AttributeError and emits no progress update for that line. -/
theorem gifmaker_C10 :
    (∀ (env : Env) (st : ConverterSettings) (line : String) (k : ℕ),
      isWebpOutput st.output_file = true →
      (st.total_duration = none ∨ st.total_duration = some 0) →
      reSearchFrame line = some k →
      (runConversion env (initState st)).state.estimatedTotalFrames = none ∧
      (processStdoutLine "ffmpeg-render" line
          (runConversion env (initState st)).state).raised = true ∧
      progressValues (processStdoutLine "ffmpeg-render" line
          (runConversion env (initState st)).state).outs = []) ∧
    (∀ (env : Env) (st : ConverterSettings),
      isWebpOutput st.output_file = false →
      (runConversion env (initState st)).state.estimatedTotalFrames.isSome = true) := by
  constructor
  · intro env st line k hw hd hf
    have hs : (runConversion env (initState st)).state.estimatedTotalFrames = none ∧
        (runConversion env (initState st)).state.settings = st := by
      by_cases hstart : env.startOk = true <;>
        simp [runConversion, runWebpConversion, initState, hw, hstart,
          handleError, cleanupTempFiles]
    have hdt : durationTruthy st.total_duration = false := by
      rcases hd with hd | hd <;> simp [durationTruthy, hd]
    refine ⟨hs.1, ?_⟩
    simp only [processStdoutLine, hf, if_pos rfl, hs.2, hdt]
    by_cases hcnt : k > (runConversion env (initState st)).state.ffmpegFrameCount <;>
      simp [hcnt, hs.1, hs.2, hdt, progressValues, Bool.false_eq_true]
  · intro env st hg
    simp only [runConversion, initState, hg, Bool.false_eq_true, if_false,
      StepResult.andThen, startNextStep]
    simp only [executePaletteGeneration_raised]
    simp [estimateFramesStep_isSome]

/-- C10, witness: the theorem at the concrete WebP job with no duration and
the line "frame=  7", and at the concrete GIF job. -/
theorem gifmaker_C10_witness :
    ((runConversion envFix (initState stWebpNoDurFix)).state.estimatedTotalFrames =
        none ∧
      (processStdoutLine "ffmpeg-render" "frame=  7"
          (runConversion envFix (initState stWebpNoDurFix)).state).raised = true ∧
      progressValues (processStdoutLine "ffmpeg-render" "frame=  7"
          (runConversion envFix (initState stWebpNoDurFix)).state).outs = []) ∧
    (runConversion envFix (initState stGifFix)).state.estimatedTotalFrames.isSome =
      true :=
  ⟨gifmaker_C10.1 envFix stWebpNoDurFix "frame=  7" 7 (by decide) (Or.inl rfl)
      (by decide),
   gifmaker_C10.2 envFix stGifFix (by decide)⟩

end GifMaker
